import Mathlib

/-
  Verification development for the LiveBetting match-analysis engine
  (src/match_analyzer.py together with src/config.py).

  The engine is embedded shallowly:
  * loosely-typed Python values appearing in statistics are `PyVal`;
  * floats are modelled as rationals, with Python `round` (banker's
    rounding at a decimal digit) modelled exactly by `pyRound`;
  * an event's `time.elapsed` is `Option Int`, `none` meaning the key is
    absent (the feed's events carry integer minutes when present);
  * `config.py` constants are transcribed literally in namespace `config`;
  * the risk / stability / temporal-threshold constants that
    `match_analyzer.py` reads from `config` are NOT defined in
    `src/config.py`; they are gathered in the structure `Cfg`
    (modelled from the spec) and the engine is parameterised over them.
-/

namespace LiveBetting

/-- A loosely-typed value as it appears in the statistics feed:
Python `None`, an `int`, a `float` (modelled as a rational), or a string. -/
inductive PyVal where
  | pnone : PyVal
  | pint : ℤ → PyVal
  | prat : ℚ → PyVal
  | pstr : String → PyVal
deriving DecidableEq, Repr

/-- Python truthiness of a `PyVal` (`None`, `0`, `0.0` and `""` are falsy). -/
def pyTruthy : PyVal → Bool
  | .pnone => false
  | .pint n => n ≠ 0
  | .prat q => q ≠ 0
  | .pstr s => s ≠ ""

/-- Python `str(value)` for the values the extractor meets.  Integral
floats print with a trailing `.0` exactly as in Python; non-integral
floats get a representation that is, like Python's, not a digit string,
which is all the extractor inspects. -/
def pyStr : PyVal → String
  | .pnone => "None"
  | .pint n => toString n
  | .prat q => if q.den = 1 then toString q.num ++ ".0" else toString q
  | .pstr s => s

/-
  Character-list implementations of the string operations the source
  uses (`lower`, `strip`, `replace('%','')`, `isdigit`, `int(...)`,
  substring membership): the kernel can evaluate these on concrete
  inputs, unlike the standard library's position-based loops.
-/

/-- Python `str.lower` (ASCII). -/
def lowerStr (s : String) : String :=
  ⟨s.data.map Char.toLower⟩

/-- Python `value.replace('%', '')`: drop every percent sign. -/
def stripPercent (s : String) : String :=
  ⟨s.data.filter (fun c => c ≠ '%')⟩

/-- Python `str.strip`: drop surrounding whitespace. -/
def pyStrip (s : String) : String :=
  ⟨((s.data.dropWhile Char.isWhitespace).reverse.dropWhile Char.isWhitespace).reverse⟩

/-- Numeric value of a digit list. -/
def digitsVal (l : List Char) : ℕ :=
  l.foldl (fun n c => n * 10 + (c.toNat - 48)) 0

/-- Python `str.isdigit` restricted to ASCII: non-empty and all digits. -/
def pyIsDigit (s : String) : Bool :=
  !s.data.isEmpty && s.data.all Char.isDigit

/-- Python `int(s)` for a digit string (used only after an `isdigit` test). -/
def digitsToInt (s : String) : ℤ :=
  (digitsVal s.data : ℤ)

/-- Whether the needle is a prefix of the haystack. -/
def listHasPre : List Char → List Char → Bool
  | _, [] => true
  | [], _ :: _ => false
  | h :: t, nh :: nt => h == nh && listHasPre t nt

/-- Whether the needle occurs somewhere in the haystack. -/
def listHasSub : List Char → List Char → Bool
  | [], needle => needle.isEmpty
  | h :: t, needle => listHasPre (h :: t) needle || listHasSub t needle

/-- Floor of a rational, written so the kernel can evaluate it
(`Int.fdiv` rounds the quotient towards negative infinity and the
denominator is positive). -/
def ratFloor (q : ℚ) : ℤ :=
  Int.fdiv q.num q.den

/-- Python `int(x)` on a float: truncation towards zero. -/
def pyTrunc (q : ℚ) : ℤ :=
  if 0 ≤ q then ratFloor q else -(ratFloor (-q))

/-- Python `round(x, n)`: round to `n` decimal digits, ties to even. -/
def pyRound (x : ℚ) (n : ℕ) : ℚ :=
  let m : ℚ := (10 : ℚ) ^ n
  let y := x * m
  let fl : ℤ := ratFloor y
  let frac := y - fl
  let r : ℤ :=
    if frac < 1/2 then fl
    else if frac > 1/2 then fl + 1
    else if fl % 2 = 0 then fl else fl + 1
  (r : ℚ) / m

/-- Python `round(x)` with no digit argument: an integer, ties to even. -/
def pyRoundInt (x : ℚ) : ℤ :=
  let fl : ℤ := ratFloor x
  let frac := x - fl
  if frac < 1/2 then fl
  else if frac > 1/2 then fl + 1
  else if fl % 2 = 0 then fl else fl + 1

/-- Python `a in b` on strings: substring containment test. -/
def strHas (hay needle : String) : Bool :=
  listHasSub hay.data needle.data

/-- Python `x or d` on an optional integer: `None` and `0` both fall back
to the default `d`. -/
def pyOr (o : Option ℤ) (d : ℤ) : ℤ :=
  match o with
  | none => d
  | some n => if n = 0 then d else n

/-- One entry of a team's statistics list: a `type` name and a value. -/
structure StatEntry where
  type : String
  value : PyVal
deriving DecidableEq, Repr

/-- One team's record in the statistics response. -/
structure TeamStats where
  statistics : List StatEntry
deriving DecidableEq, Repr

/-- One event of the match event log.  `elapsed` is `time.elapsed`
(`none` when the key is absent); `etype` and `detail` are the event's
`type` and `detail` strings (empty when absent). -/
structure Event where
  elapsed : Option ℤ
  etype : String
  detail : String
deriving DecidableEq, Repr

/-- The `goals` record of a fixture (`none` when a key is absent). -/
structure Goals where
  home : Option ℤ
  away : Option ℤ
deriving DecidableEq, Repr

/-- The fixture snapshot handed to `analyze_match`. -/
structure Fixture where
  fixtureId : Option ℤ
  statusElapsed : Option ℤ
  homeId : Option ℤ
  awayId : Option ℤ
  goals : Goals
deriving DecidableEq, Repr

/-- One past match returned by `get_team_form`: flags for the presence of
the `goals` and `teams` dictionaries, the goal counts, and the home
team's identifier. -/
structure FormMatch where
  hasGoals : Bool
  hasTeams : Bool
  homeTeamId : Option ℤ
  goalsHome : Option ℤ
  goalsAway : Option ℤ
deriving DecidableEq, Repr

/-- One past match returned by `get_h2h_matches`. -/
structure H2HMatch where
  hasGoals : Bool
  goalsHome : Option ℤ
  goalsAway : Option ℤ
deriving DecidableEq, Repr

/-- All collaborator responses consumed during one analysis:
`get_match_statistics`, `get_match_events`, `get_team_form` for each
team, and `get_h2h_matches`. -/
structure ApiData where
  stats : List TeamStats
  events : List Event
  homeForm : List FormMatch
  awayForm : List FormMatch
  h2h : List H2HMatch
deriving DecidableEq, Repr

namespace config

/- Constants transcribed from src/config.py. -/

def REQUIRED_SCORE : ℤ := 12
def MAX_TOTAL_SCORE : ℤ := 30
def STRONG_CONFIDENCE : ℚ := 70/100
def CANDIDATE_CONFIDENCE : ℚ := 55/100
def WEAK_CONFIDENCE : ℚ := 45/100
def ALLOWED_SCORES : List (ℤ × ℤ) :=
  [(0,0), (1,0), (0,1), (1,1), (2,0), (0,2), (2,1), (1,2)]
def EXCLUDED_SCORES : List (ℤ × ℤ) := [(2,2), (3,2), (2,3), (3,3)]
def MAX_COMBINED_XG : ℚ := 22/10
def MAX_TOTAL_SHOTS : ℚ := 14
def MAX_SHOTS_ON_TARGET : ℚ := 5
def MAX_CORNERS : ℚ := 7
def MAX_POSSESSION_DIFF : ℚ := 18
def MAX_SECOND_HALF_XG : ℚ := 6/10
def MAX_SECOND_HALF_SHOTS : ℚ := 5
def MAX_SECOND_HALF_SHOTS_ON_TARGET : ℚ := 2
def MAX_SECOND_HALF_CORNERS : ℤ := 3
def MAX_SECOND_HALF_POSSESSION_DIFF : ℚ := 15
def MAX_TEAM_NPXG : ℚ := 13/10
def MAX_H2H_AVG_GOALS : ℚ := 21/10
def PENALTY_RED_CARD_WITH_PRESSURE : ℤ := -3
def PENALTY_XG_DIFF : ℤ := -2
def PENALTY_SECOND_HALF_PENALTY : ℤ := -4
def PENALTY_XG_SLOPE_RISING : ℤ := -3
def MAX_XG_DIFFERENCE : ℚ := 13/10
def BONUS_FIRST_HALF_MIN_GOALS : ℤ := 2
def BONUS_SECOND_HALF_MAX_XG : ℚ := 5/10
def MAX_XG_SLOPE_LAST10 : ℚ := 0
def FALSE_PRESSURE_CORNERS_LAST10 : ℤ := 2
def FALSE_PRESSURE_XG_PER_SHOT : ℚ := 8/100
def FALSE_PRESSURE_ON_TARGET : ℤ := 1
def COMPACT_DEFENSE_POSS_DIFF : ℚ := 15
/-- Source name `SHOT_QUALITY_BLOCKED_` followed by `RATIO`; shortened here. -/
def SHOT_QUALITY_BLOCKED_CUTOFF : ℚ := 45/100
def TOLERANCE_MINUTE_70 : ℤ := 1
def TOLERANCE_MINUTE_80 : ℤ := 2
def CACHE_DELTA_CONFIDENCE : ℚ := 6/100

/-- All names bound at module level by src/config.py. -/
def config_defines : List String :=
  ["API_FOOTBALL_KEY", "API_FOOTBALL_HOST", "API_FOOTBALL_BASE_URL",
   "TELEGRAM_BOT_TOKEN", "TELEGRAM_CHAT_ID",
   "DAILY_REQUEST_LIMIT", "HOURLY_REQUEST_BUDGET", "EMERGENCY_BUFFER",
   "MAX_REQUESTS_PER_SCAN", "BASE_SCAN_INTERVAL", "OFF_PEAK_INTERVAL",
   "PEAK_HOURS_START", "PEAK_HOURS_END",
   "MIN_MINUTE", "MAX_MINUTE", "MIN_MINUTE_EXTENDED", "MAX_MINUTE_EXTENDED",
   "REQUIRED_SCORE", "MAX_TOTAL_SCORE",
   "STRONG_CONFIDENCE", "CANDIDATE_CONFIDENCE", "WEAK_CONFIDENCE",
   "ALLOWED_SCORES", "EXCLUDED_SCORES",
   "MAX_COMBINED_XG", "MAX_TOTAL_SHOTS", "MAX_SHOTS_ON_TARGET",
   "MAX_CORNERS", "MAX_POSSESSION_DIFF",
   "MAX_SECOND_HALF_XG", "MAX_SECOND_HALF_SHOTS",
   "MAX_SECOND_HALF_SHOTS_ON_TARGET", "MAX_LAST_15MIN_SHOTS",
   "MAX_SECOND_HALF_CORNERS", "MAX_SECOND_HALF_POSSESSION_DIFF",
   "MAX_TEAM_NPXG", "MAX_H2H_AVG_GOALS",
   "PENALTY_RED_CARD_WITH_PRESSURE", "PENALTY_XG_DIFF",
   "PENALTY_SECOND_HALF_PENALTY", "PENALTY_XG_SLOPE_RISING",
   "MAX_XG_DIFFERENCE",
   "BONUS_FIRST_HALF_MIN_GOALS", "BONUS_SECOND_HALF_MAX_XG",
   "MAX_XG_SLOPE_LAST10", "TURNOVERS_DOWN_THRESHOLD",
   "ATTACK_CONVERSION_DOWN_THRESHOLD", "FOULS_AND_PASS_SPEED_DOWN",
   "LEAD_KILL_MODE_THRESHOLD", "DRAW_MODE_THRESHOLD",
   "FALSE_PRESSURE_CORNERS_LAST10", "FALSE_PRESSURE_XG_PER_SHOT",
   "FALSE_PRESSURE_ON_TARGET", "COMPACT_DEFENSE_POSS_DIFF",
   "COMPACT_DEFENSE_POSS_VAR", "SHOT_QUALITY_DISTANCE_INCREASE",
   "SHOT_QUALITY_BLOCKED_RATIO",
   "TOLERANCE_MINUTE_70", "TOLERANCE_MINUTE_80",
   "CACHE_DELTA_CONFIDENCE",
   "MATCH_MEMORY_HOURS", "DATABASE_FILE", "LOG_FILE",
   "PRIORITY_LEAGUES", "MAX_RETRIES", "RETRY_BACKOFF_FACTOR",
   "REQUEST_TIMEOUT", "TELEGRAM_POLLING", "TELEGRAM_POLL_INTERVAL",
   "SHOW_PAUSE_BUTTONS"]

end config

/-- Modelled from the spec: the risk-index, stability-index and
temporal-threshold tunables that `match_analyzer.py` reads from the
`config` module.  `src/config.py` does not define any of them (see the
`config.config_defines` transcription), so the spec's configuration
surface — "risk weights and caps, stability weights and normalizer,
minute-based threshold reliefs and floor" — is modelled as an explicit
parameter structure and the engine is quantified over it. -/
structure Cfg where
  RISK_DANGEROUS_ACTIONS_CAP : ℚ
  RISK_PRESSURE_EVENTS_CAP : ℚ
  RISK_CARD_EVENTS_CAP : ℚ
  RISK_SLOPE_CAP : ℚ
  RISK_TEMPO_WEIGHT : ℚ
  RISK_PRESSURE_WEIGHT : ℚ
  RISK_CARD_WEIGHT : ℚ
  RISK_XG_SLOPE_WEIGHT : ℚ
  MAX_RISK_INDEX : ℚ
  RISK_WARNING_THRESHOLD : ℚ
  STABILITY_MARGIN_NORMALIZER : ℚ
  STABILITY_RISK_WEIGHT : ℚ
  STABILITY_TEMPO_WEIGHT : ℚ
  STABILITY_CARD_WEIGHT : ℚ
  MIN_STABILITY_INDEX : ℚ
  STABILITY_MARGIN_RECOVERY : ℚ
  STABILITY_STRONG_MARGIN : ℚ
  LATE_WINDOW_THRESHOLD_MINUTE : ℤ
  LATE_WINDOW_THRESHOLD_REDUCTION : ℚ
  LOW_RISK_RELAXATION_THRESHOLD : ℚ
  LOW_RISK_RELAXATION_DELTA : ℚ
  MINIMUM_EFFECTIVE_THRESHOLD : ℚ

/-- MatchAnalyzer.score_band: banded score for a metric; the first band
whose threshold the value does not exceed wins, else the default. -/
def score_band (value : ℚ) : List (ℚ × ℤ) → ℤ → ℤ
  | [], d => d
  | (threshold, points) :: rest, d =>
    if value ≤ threshold then points else score_band value rest d

/-- MatchAnalyzer.is_shot_event. -/
def is_shot_event (e : Event) : Bool :=
  let event_type := lowerStr e.etype
  let detail := lowerStr e.detail
  strHas event_type "shot" || strHas detail "shot" || strHas detail "goal"
    || event_type == "goal"

/-- MatchAnalyzer.is_shot_on_target_event. -/
def is_shot_on_target_event (e : Event) : Bool :=
  let detail := lowerStr e.detail
  let event_type := lowerStr e.etype
  strHas detail "goal" || strHas detail "shot on target" || event_type == "goal"
    || (strHas detail "penalty" && !(strHas detail "missed"))

/-- MatchAnalyzer.parse_numeric_value.  The string branch accepts an
optional sign and decimal digits with at most one point, covering the
feed's numeric and percentage strings; other strings yield `none` as the
Python `float()` call raises and is caught. -/
def parseFloatStr (s : String) : Option ℚ :=
  let chars := s.data
  let core := if chars.head? = some '+' ∨ chars.head? = some '-' then chars.drop 1
    else chars
  let sign : ℚ := if chars.head? = some '-' then -1 else 1
  let int_part := core.takeWhile (fun c => c ≠ '.')
  match core.dropWhile (fun c => c ≠ '.') with
  | [] =>
    if int_part ≠ [] ∧ int_part.all Char.isDigit then
      some (sign * (digitsVal int_part : ℚ))
    else none
  | _ :: frac =>
    if frac.all (fun c => c ≠ '.') ∧ int_part.all Char.isDigit
        ∧ frac.all Char.isDigit ∧ (int_part ≠ [] ∨ frac ≠ []) then
      some (sign * ((digitsVal int_part : ℚ)
        + (digitsVal frac : ℚ) / (10 : ℚ) ^ frac.length))
    else none

/-- MatchAnalyzer.parse_numeric_value. -/
def parse_numeric_value (v : PyVal) : Option ℚ :=
  match v with
  | .pnone => none
  | .pstr s =>
    if s = "N/A" then none
    else
      let cleaned := pyStrip (stripPercent s)
      if cleaned = "" then none else parseFloatStr cleaned
  | .pint n => some (n : ℚ)
  | .prat q => some q

/-- The conversion the extractor applies to a matching raw value:
strip `%`, then `int` of a digit string, and `0` for anything else. -/
def statValueToInt (v : PyVal) : ℤ :=
  let str_val := stripPercent (pyStr v)
  if pyIsDigit str_val then digitsToInt str_val else 0

/-- A statistics entry the extractor accepts: truthy and not `"N/A"`. -/
def statEffective (v : PyVal) : Bool :=
  pyTruthy v && v ≠ .pstr "N/A"

/-- The per-team scan of MatchAnalyzer.extract_statistic: the first entry
of the requested type whose value is truthy and not `"N/A"` is converted
and returned. -/
def extract_from_list : List StatEntry → String → Option ℤ
  | [], _ => none
  | s :: rest, stat_name =>
    if s.type = stat_name ∧ statEffective s.value then
      some (statValueToInt s.value)
    else extract_from_list rest stat_name

/-- The both-teams accumulation of MatchAnalyzer.extract_statistic. -/
def sum_stat_list (l : List StatEntry) (stat_name : String) : ℤ :=
  l.foldl
    (fun acc s =>
      if s.type = stat_name ∧ statEffective s.value then
        acc + statValueToInt s.value
      else acc) 0

/-- MatchAnalyzer.extract_statistic.  With a team index it returns that
team's first accepted value (`none` when the list is empty, the index is
out of range — the caught IndexError — or no entry is accepted); with no
index it returns the sum of accepted values across all teams. -/
def extract_statistic (stats : List TeamStats) (stat_name : String)
    (team_index : Option ℕ) : Option ℤ :=
  if stats = [] then none
  else
    match team_index with
    | some i =>
      match stats.get? i with
      | none => none
      | some team => extract_from_list team.statistics stat_name
    | none =>
      some (stats.foldl (fun acc team => acc + sum_stat_list team.statistics stat_name) 0)

/-- The per-team fold of MatchAnalyzer.calculate_xg_from_stats: walk the
entries accumulating `Shots on Goal`, `Total Shots` and any explicit
expected-goals figure (each later parseable entry overwrites). -/
def xg_fold_step (st : ℤ × ℤ × Option ℚ) (s : StatEntry) : ℤ × ℤ × Option ℚ :=
  let stat_type := pyStrip s.type
  match parse_numeric_value s.value with
  | none => st
  | some numeric_value =>
    let stat_key := lowerStr stat_type
    if stat_key = "expected goals" ∨ stat_key = "expected_goals" ∨ stat_key = "xg" then
      (st.1, st.2.1, some numeric_value)
    else if stat_type = "Shots on Goal" then
      (pyRoundInt numeric_value, st.2.1, st.2.2)
    else if stat_type = "Total Shots" then
      (st.1, pyRoundInt numeric_value, st.2.2)
    else st

/-- One team's expected-goals figure in calculate_xg_from_stats: the
explicit statistic when present, otherwise the shot-based estimate
`0.35 × shots_on_target + 0.05 × max 0 (total_shots − shots_on_target)`. -/
def team_xg_of (l : List StatEntry) : ℚ :=
  let folded := l.foldl xg_fold_step (0, 0, none)
  match folded.2.2 with
  | some x => x
  | none =>
    let shots_on_target := folded.1
    let total_shots := folded.2.1
    let off_target : ℤ := max 0 (total_shots - shots_on_target)
    (shots_on_target : ℚ) * (35/100) + (off_target : ℚ) * (5/100)

/-- The unrounded sum of all teams' expected-goals figures. -/
def total_xg_of (stats : List TeamStats) : ℚ :=
  (stats.map (fun t => team_xg_of t.statistics)).foldl (· + ·) 0

/-- MatchAnalyzer.calculate_xg_from_stats.  Returns
`(combined_xg, second_half_xg, (home_xg, away_xg))`.  With at least two
teams the even-split fallback branch of the source is unreachable
(`team_xg_values` receives one entry per team). -/
def calculate_xg_from_stats (stats : List TeamStats) : ℚ × ℚ × (ℚ × ℚ) :=
  if stats.length < 2 then (0, 0, (0, 0))
  else
    let total_xg := total_xg_of stats
    let team_xg_values := stats.map (fun t => pyRound (team_xg_of t.statistics) 2)
    let second_half_xg := total_xg * (35/100)
    (pyRound total_xg 2, pyRound second_half_xg 2,
      ((team_xg_values.get? 0).getD 0, (team_xg_values.get? 1).getD 0))

/-- MatchAnalyzer.count_events_in_range: events whose minute lies in the
clamped inclusive range and that satisfy the predicate.  Events whose
`time.elapsed` is absent are skipped. -/
def count_events_in_range (events : List Event) (start_minute end_minute : ℤ)
    (pred : Event → Bool) : ℤ :=
  if events = [] then 0
  else
    let start := max 0 start_minute
    let stop := max start end_minute
    events.foldl
      (fun total e =>
        match e.elapsed with
        | none => total
        | some event_minute =>
          if start ≤ event_minute ∧ event_minute ≤ stop ∧ pred e then total + 1
          else total) 0

/-- MatchAnalyzer.calculate_xg_slope: activity difference between the
last five and the previous five minutes, scaled by 0.1. -/
def calculate_xg_slope (events : List Event) (current_minute : ℤ) : ℚ :=
  if events = [] ∨ current_minute < 10 then 0
  else
    let recent_events := events.filter (fun e => e.elapsed.getD 0 ≥ current_minute - 10)
    if recent_events.length < 2 then 0
    else
      let dangerous_actions := recent_events.filter
        (fun e => e.etype == "Goal" || e.etype == "Shot" || e.etype == "Var")
      let mid_point := current_minute - 5
      let recent_5 := (dangerous_actions.filter (fun e => e.elapsed.getD 0 ≥ mid_point)).length
      let prev_5 := (dangerous_actions.filter (fun e => e.elapsed.getD 0 < mid_point)).length
      ((recent_5 : ℚ) - (prev_5 : ℚ)) * (1/10)

/-- Tempo summary built by MatchAnalyzer.calculate_tempo_metrics. -/
structure TempoMetrics where
  window_minutes : ℤ
  dangerous_actions : ℤ
  pressure_events : ℤ
  cards_recent : ℤ
  tempo_index : ℚ
  xg_slope : ℚ
deriving DecidableEq, Repr

/-- The pressure-event predicate of calculate_tempo_metrics. -/
def tempo_pressure_pred (e : Event) : Bool :=
  let d := lowerStr e.detail
  d == "corner" || d == "dangerous attack" || strHas d "free kick"

/-- The card predicate of calculate_tempo_metrics. -/
def tempo_card_pred (e : Event) : Bool :=
  strHas (lowerStr e.detail) "card"

/-- MatchAnalyzer.calculate_tempo_metrics. -/
def calculate_tempo_metrics (events : List Event) (minute : ℤ) : TempoMetrics :=
  let window_start := minute - 12
  let dangerous_actions := count_events_in_range events window_start minute is_shot_event
  let pressure_events := count_events_in_range events window_start minute tempo_pressure_pred
  let cards_recent := count_events_in_range events window_start minute tempo_card_pred
  let tempo_minutes := max 1 (minute - max 0 window_start)
  let tempo_index :=
    ((dangerous_actions : ℚ) + (6/10) * (pressure_events : ℚ)) / (tempo_minutes : ℚ)
  { window_minutes := tempo_minutes
    dangerous_actions := dangerous_actions
    pressure_events := pressure_events
    cards_recent := cards_recent
    tempo_index := pyRound tempo_index 3
    xg_slope := calculate_xg_slope events minute }

/-- MatchAnalyzer.calculate_risk_index, parameterised over the missing
configuration constants. -/
def calculate_risk_index (cfg : Cfg) (tempo_metrics : TempoMetrics) : ℚ :=
  let tempo_score :=
    min 1 ((tempo_metrics.dangerous_actions : ℚ) / max 1 cfg.RISK_DANGEROUS_ACTIONS_CAP)
  let pressure_score :=
    min 1 ((tempo_metrics.pressure_events : ℚ) / max 1 cfg.RISK_PRESSURE_EVENTS_CAP)
  let card_score :=
    min 1 ((tempo_metrics.cards_recent : ℚ) / max 1 cfg.RISK_CARD_EVENTS_CAP)
  let slope_raw := max 0 tempo_metrics.xg_slope
  let slope_score := min 1 (slope_raw / max (1/100) cfg.RISK_SLOPE_CAP)
  let risk_index :=
    tempo_score * cfg.RISK_TEMPO_WEIGHT + pressure_score * cfg.RISK_PRESSURE_WEIGHT
      + card_score * cfg.RISK_CARD_WEIGHT + slope_score * cfg.RISK_XG_SLOPE_WEIGHT
  pyRound (min 1 risk_index) 3

/-- MatchAnalyzer.check_turnovers_decreasing. -/
def check_turnovers_decreasing (stats : List TeamStats) : Bool :=
  let home_pass_acc := pyOr (extract_statistic stats "Passes %" (some 0)) 70
  let away_pass_acc := pyOr (extract_statistic stats "Passes %" (some 1)) 70
  let avg_pass_acc : ℚ := ((home_pass_acc : ℚ) + (away_pass_acc : ℚ)) / 2
  decide (avg_pass_acc > 75)

/-- MatchAnalyzer.check_attack_conversion_down. -/
def check_attack_conversion_down (stats : List TeamStats) : Bool :=
  let total_shots := pyOr (extract_statistic stats "Total Shots" none) 0
  let shots_on_target := pyOr (extract_statistic stats "Shots on Goal" none) 0
  if total_shots = 0 then true
  else decide ((shots_on_target : ℚ) / (total_shots : ℚ) < 30/100)

/-- MatchAnalyzer.check_fouls_and_pass_speed_down. -/
def check_fouls_and_pass_speed_down (stats : List TeamStats) (_events : List Event) : Bool :=
  let total_fouls := pyOr (extract_statistic stats "Fouls" none) 0
  let total_passes := pyOr (extract_statistic stats "Total passes" none) 1
  decide (total_fouls < 15 ∧ total_passes > 400)

/-- MatchAnalyzer.check_lead_kill_mode. -/
def check_lead_kill_mode (stats : List TeamStats) (goals_data : Goals) : Bool :=
  let home_goals := goals_data.home.getD 0
  let away_goals := goals_data.away.getD 0
  if home_goals = away_goals then false
  else
    let leading_team_idx : ℕ := if home_goals > away_goals then 0 else 1
    let possession := pyOr (extract_statistic stats "Ball Possession" (some leading_team_idx)) 50
    let pass_acc := pyOr (extract_statistic stats "Passes %" (some leading_team_idx)) 70
    decide (possession > 55 ∧ pass_acc > 80)

/-- MatchAnalyzer.check_draw_mode. -/
def check_draw_mode (stats : List TeamStats) (goals_data : Goals) : Bool :=
  let home_goals := goals_data.home.getD 0
  let away_goals := goals_data.away.getD 0
  if home_goals ≠ away_goals then false
  else
    let total_shots := pyOr (extract_statistic stats "Total Shots" none) 0
    decide (total_shots < 10)

/-- MatchAnalyzer.check_false_pressure. -/
def check_false_pressure (events : List Event) (current_minute : ℤ) : Bool :=
  if events = [] ∨ current_minute < 10 then false
  else
    let recent_events := events.filter (fun e => e.elapsed.getD 0 ≥ current_minute - 10)
    let corners := (recent_events.filter (fun e => e.detail == "Corner")).length
    let shots_on_target := (recent_events.filter
      (fun e => e.detail == "Normal Goal" || e.detail == "Shot on target")).length
    let total_shots := (recent_events.filter (fun e => strHas e.etype "Shot")).length
    if (corners : ℤ) ≥ config.FALSE_PRESSURE_CORNERS_LAST10 ∧
        (shots_on_target : ℤ) ≤ config.FALSE_PRESSURE_ON_TARGET then
      if total_shots > 0 then
        decide ((shots_on_target : ℚ) * (35/100) / max (total_shots : ℚ) 1
          ≤ config.FALSE_PRESSURE_XG_PER_SHOT)
      else false
    else false

/-- MatchAnalyzer.check_compact_defense. -/
def check_compact_defense (_stats : List TeamStats) (poss_diff : ℚ) : Bool :=
  if poss_diff > config.COMPACT_DEFENSE_POSS_DIFF then false else true

/-- MatchAnalyzer.check_shot_quality_collapse. -/
def check_shot_quality_collapse (stats : List TeamStats) : Bool :=
  let total_shots := pyOr (extract_statistic stats "Total Shots" none) 0
  let blocked_shots := pyOr (extract_statistic stats "Blocked Shots" none) 0
  if total_shots = 0 then false
  else decide ((blocked_shots : ℚ) / (total_shots : ℚ) ≥ config.SHOT_QUALITY_BLOCKED_CUTOFF)

/-- MatchAnalyzer.check_red_card_with_pressure. -/
def check_red_card_with_pressure (events : List Event) (_current_minute : ℤ) : Bool :=
  let red_cards := events.filter (fun e => e.detail == "Red Card")
  match red_cards.getLast? with
  | none => false
  | some last_red =>
    let last_red_minute := last_red.elapsed.getD 0
    let actions_after_red := events.filter
      (fun e => decide (e.elapsed.getD 0 > last_red_minute)
        && (e.etype == "Shot" || e.etype == "Goal"))
    decide (actions_after_red.length ≥ 3)

/-- MatchAnalyzer.check_second_half_penalty. -/
def check_second_half_penalty (events : List Event) : Bool :=
  events.any (fun e => strHas e.detail "Penalty" && decide (e.elapsed.getD 0 ≥ 45))

/-- MatchAnalyzer.analyze_team_form applied to the collaborator's reply:
average goals of the team over the returned matches, with `1.0` for an
empty reply or a zero total. -/
def analyze_team_form (recent_matches : List FormMatch) (team_id : ℤ) : ℚ :=
  if recent_matches = [] then 1
  else
    let match_count := recent_matches.length
    let total_goals := recent_matches.foldl
      (fun (acc : ℤ) m =>
        if ¬ m.hasGoals then acc
        else if ¬ m.hasTeams then acc
        else if m.homeTeamId = some team_id then acc + m.goalsHome.getD 0
        else acc + m.goalsAway.getD 0) 0
    if total_goals = 0 then 1
    else pyRound ((total_goals : ℚ) / max 1 (match_count : ℚ)) 2

/-- MatchAnalyzer.analyze_h2h_history applied to the collaborator's
reply: average total goals over the valid matches, with `2.5` when none
are valid. -/
def analyze_h2h_history (h2h_matches : List H2HMatch) : ℚ :=
  if h2h_matches = [] then 5/2
  else
    let step := fun (acc : ℤ × ℤ) (m : H2HMatch) =>
      if ¬ m.hasGoals then acc
      else
        match m.goalsHome, m.goalsAway with
        | some hg, some ag => (acc.1 + hg + ag, acc.2 + 1)
        | _, _ => acc
    let totals := h2h_matches.foldl step (0, 0)
    if totals.2 = 0 then 5/2
    else pyRound ((totals.1 : ℚ) / (totals.2 : ℚ)) 2

/-- The score breakdown built by calculate_match_score.  Penalty entries
are `Option` because the source only inserts them when triggered. -/
structure Breakdown where
  total_xg : ℤ
  total_shots : ℤ
  shots_on_target : ℤ
  corners : ℤ
  possession_diff : ℤ
  second_half_xg : ℤ
  second_half_shots : ℤ
  second_half_sot : ℤ
  last_15min_shots : ℤ
  second_half_corners : ℤ
  second_half_poss_diff : ℤ
  xg_slope : ℤ
  turnovers_down : ℤ
  attack_conversion_down : ℤ
  fouls_pass_down : ℤ
  lead_kill_mode : ℤ
  draw_mode : ℤ
  false_pressure : ℤ
  compact_defense : ℤ
  shot_quality_collapse : ℤ
  penalty_red_card : Option ℤ
  penalty_xg_diff : Option ℤ
  penalty_2h_penalty : Option ℤ
  penalty_xg_slope_rising : Option ℤ
  raw_score : ℤ
  penalties : ℤ
  final_score : ℤ

/-- The value standing for the empty dictionary returned on the
fewer-than-two-teams early exit. -/
def Breakdown.empty : Breakdown :=
  ⟨0, 0, 0, 0, 0, 0, 0, 0, 0, 0, 0, 0, 0, 0, 0, 0, 0, 0, 0, 0,
   none, none, none, none, 0, 0, 0⟩

/-- Criterion 1.1 of calculate_match_score. -/
def total_xg_points (combined_xg : ℚ) : ℤ :=
  score_band combined_xg [(16/10, 3), (19/10, 2), (config.MAX_COMBINED_XG, 1)] 0

/-- Criterion 1.2 of calculate_match_score. -/
def total_shots_points (total_shots : ℤ) : ℤ :=
  score_band (total_shots : ℚ) [(10, 2), (config.MAX_TOTAL_SHOTS, 1)] 0

/-- Criterion 1.3 of calculate_match_score. -/
def shots_on_target_points (shots_on_target : ℤ) : ℤ :=
  score_band (shots_on_target : ℚ) [(3, 2), (config.MAX_SHOTS_ON_TARGET, 1)] 0

/-- Criterion 1.4 of calculate_match_score. -/
def corners_points (total_corners : ℤ) : ℤ :=
  if (total_corners : ℚ) ≤ config.MAX_CORNERS then
    score_band (total_corners : ℚ) [(4, 1), (config.MAX_CORNERS, 1)] 0
  else 0

/-- Criterion 1.5 of calculate_match_score. -/
def possession_points (poss_diff : ℤ) : ℤ :=
  if (poss_diff : ℚ) ≤ config.MAX_POSSESSION_DIFF then
    score_band (poss_diff : ℚ) [(10, 1), (config.MAX_POSSESSION_DIFF, 1)] 0
  else 0

/-- Criterion 2.1 of calculate_match_score. -/
def second_half_xg_points (second_half_xg : ℚ) : ℤ :=
  score_band second_half_xg [(35/100, 3), (5/10, 2), (config.MAX_SECOND_HALF_XG, 1)] 0

/-- Criterion 2.2 of calculate_match_score. -/
def second_half_shots_points (n : ℤ) : ℤ :=
  score_band (n : ℚ) [(3, 2), (config.MAX_SECOND_HALF_SHOTS, 1)] 0

/-- Criterion 2.3 of calculate_match_score. -/
def second_half_sot_points (n : ℤ) : ℤ :=
  score_band (n : ℚ) [(1, 2), (config.MAX_SECOND_HALF_SHOTS_ON_TARGET, 1)] 0

/-- Criterion 2.4 of calculate_match_score (bands are literals there). -/
def last15_points (n : ℤ) : ℤ :=
  score_band (n : ℚ) [(2, 2), (3, 1)] 0

/-- MatchAnalyzer.calculate_match_score.  Returns
`(final_score, breakdown, bonus_tag)`. -/
def calculate_match_score (stats : List TeamStats) (events : List Event)
    (goals_data : Goals) (minute : ℤ) (combined_xg second_half_xg : ℚ)
    (team_xg_split : ℚ × ℚ) : ℤ × Breakdown × String :=
  if stats.length < 2 then (0, Breakdown.empty, "")
  else
    let second_half_shots0 := count_events_in_range events 45 minute is_shot_event
    let second_half_sot0 := count_events_in_range events 45 minute is_shot_on_target_event
    let last_15min_shots0 := count_events_in_range events (minute - 15) minute is_shot_event
    let second_half_corners0 :=
      count_events_in_range events 45 minute (fun e => lowerStr e.detail == "corner")
    let xg_points := total_xg_points combined_xg
    let total_shots := pyOr (extract_statistic stats "Total Shots" none) 0
    let total_shots_pts := total_shots_points total_shots
    let shots_on_target := pyOr (extract_statistic stats "Shots on Goal" none) 0
    let shots_on_target_pts := shots_on_target_points shots_on_target
    let total_corners := pyOr (extract_statistic stats "Corner Kicks" none) 0
    let corners_pts := corners_points total_corners
    let home_poss := pyOr (extract_statistic stats "Ball Possession" (some 0)) 50
    let away_poss := pyOr (extract_statistic stats "Ball Possession" (some 1)) 50
    let poss_diff := |home_poss - away_poss|
    let poss_pts := possession_points poss_diff
    let second_half_xg_pts := second_half_xg_points second_half_xg
    let second_half_shots :=
      if second_half_shots0 = 0 ∧ events = [] then pyTrunc ((total_shots : ℚ) * (45/100))
      else second_half_shots0
    let second_half_shots_pts := second_half_shots_points second_half_shots
    let second_half_sot :=
      if second_half_sot0 = 0 ∧ events = [] then pyTrunc ((shots_on_target : ℚ) * (5/10))
      else second_half_sot0
    let second_half_sot_pts := second_half_sot_points second_half_sot
    let last_15min_shots :=
      if last_15min_shots0 = 0 ∧ events = [] then pyTrunc ((total_shots : ℚ) * (2/10))
      else last_15min_shots0
    let last15_pts := last15_points last_15min_shots
    let second_half_corners :=
      if second_half_corners0 = 0 ∧ total_corners ≠ 0 ∧ events = [] then
        pyTrunc ((total_corners : ℚ) * (5/10))
      else second_half_corners0
    let second_half_corners_pts : ℤ :=
      if second_half_corners ≤ config.MAX_SECOND_HALF_CORNERS then 1 else 0
    let second_half_poss_pts : ℤ :=
      if (poss_diff : ℚ) ≤ config.MAX_SECOND_HALF_POSSESSION_DIFF then 1 else 0
    let xg_slope_last10 := calculate_xg_slope events minute
    let xg_slope_pts : ℤ := if xg_slope_last10 ≤ config.MAX_XG_SLOPE_LAST10 then 2 else 0
    let turnovers_pts : ℤ := if check_turnovers_decreasing stats then 1 else 0
    let attack_conversion_pts : ℤ := if check_attack_conversion_down stats then 1 else 0
    let fouls_pass_pts : ℤ := if check_fouls_and_pass_speed_down stats events then 1 else 0
    let lead_kill_pts : ℤ := if check_lead_kill_mode stats goals_data then 2 else 0
    let draw_mode_pts : ℤ := if check_draw_mode stats goals_data then 1 else 0
    let false_pressure_pts : ℤ := if check_false_pressure events minute then 1 else 0
    let compact_defense_pts : ℤ :=
      if check_compact_defense stats (poss_diff : ℚ) then 1 else 0
    let shot_quality_pts : ℤ := if check_shot_quality_collapse stats then 1 else 0
    let score :=
      xg_points + total_shots_pts + shots_on_target_pts + corners_pts + poss_pts
        + second_half_xg_pts + second_half_shots_pts + second_half_sot_pts + last15_pts
        + second_half_corners_pts + second_half_poss_pts
        + xg_slope_pts + turnovers_pts + attack_conversion_pts + fouls_pass_pts
        + lead_kill_pts + draw_mode_pts
        + false_pressure_pts + compact_defense_pts + shot_quality_pts
    let red_card_trigger := check_red_card_with_pressure events minute
    let xg_diff := |team_xg_split.1 - team_xg_split.2|
    let xg_diff_trigger := xg_diff > config.MAX_XG_DIFFERENCE
    let penalty_2h_trigger := check_second_half_penalty events
    let slope_trigger := xg_slope_last10 > 1/10
    let penalties :=
      (if red_card_trigger then config.PENALTY_RED_CARD_WITH_PRESSURE else 0)
        + (if xg_diff_trigger then config.PENALTY_XG_DIFF else 0)
        + (if penalty_2h_trigger then config.PENALTY_SECOND_HALF_PENALTY else 0)
        + (if slope_trigger then config.PENALTY_XG_SLOPE_RISING else 0)
    let total_goals := goals_data.home.getD 0 + goals_data.away.getD 0
    let bonus_tag :=
      if total_goals ≥ config.BONUS_FIRST_HALF_MIN_GOALS
          ∧ second_half_xg ≤ config.BONUS_SECOND_HALF_MAX_XG then
        "🔥 Early goals, dead tempo"
      else ""
    let final_score := max 0 (score + penalties)
    (final_score,
      { total_xg := xg_points
        total_shots := total_shots_pts
        shots_on_target := shots_on_target_pts
        corners := corners_pts
        possession_diff := poss_pts
        second_half_xg := second_half_xg_pts
        second_half_shots := second_half_shots_pts
        second_half_sot := second_half_sot_pts
        last_15min_shots := last15_pts
        second_half_corners := second_half_corners_pts
        second_half_poss_diff := second_half_poss_pts
        xg_slope := xg_slope_pts
        turnovers_down := turnovers_pts
        attack_conversion_down := attack_conversion_pts
        fouls_pass_down := fouls_pass_pts
        lead_kill_mode := lead_kill_pts
        draw_mode := draw_mode_pts
        false_pressure := false_pressure_pts
        compact_defense := compact_defense_pts
        shot_quality_collapse := shot_quality_pts
        penalty_red_card :=
          if red_card_trigger then some config.PENALTY_RED_CARD_WITH_PRESSURE else none
        penalty_xg_diff := if xg_diff_trigger then some config.PENALTY_XG_DIFF else none
        penalty_2h_penalty :=
          if penalty_2h_trigger then some config.PENALTY_SECOND_HALF_PENALTY else none
        penalty_xg_slope_rising :=
          if slope_trigger then some config.PENALTY_XG_SLOPE_RISING else none
        raw_score := score
        penalties := penalties
        final_score := final_score },
      bonus_tag)

/-- MatchAnalyzer.calculate_stability_index, parameterised over the
missing configuration constants.  Returns `(stability_index, margin)`. -/
def calculate_stability_index (cfg : Cfg) (match_score : ℤ)
    (effective_threshold risk_index : ℚ) (tempo_metrics : TempoMetrics) : ℚ × ℚ :=
  let margin := (match_score : ℚ) - effective_threshold
  let normalized_margin := max 0 (min 1 (margin / max 1 cfg.STABILITY_MARGIN_NORMALIZER))
  let tempo_index := max 0 tempo_metrics.tempo_index
  let card_pressure := (tempo_metrics.cards_recent : ℚ) / max 1 cfg.RISK_CARD_EVENTS_CAP
  let raw_index :=
    45/100 + normalized_margin - risk_index * cfg.STABILITY_RISK_WEIGHT
      - tempo_index * cfg.STABILITY_TEMPO_WEIGHT
      - card_pressure * cfg.STABILITY_CARD_WEIGHT
  (max 0 (min 1 (pyRound raw_index 3)), pyRound margin 2)

/-- The four-level verdict of the classifier. -/
inductive Class where
  | strong_candidate
  | candidate
  | weak_candidate
  | reject
deriving DecidableEq, Repr

/-- MatchAnalyzer.classify_confidence. -/
def classify_confidence (confidence : ℚ) : Class :=
  if confidence ≥ config.STRONG_CONFIDENCE then .strong_candidate
  else if confidence ≥ config.CANDIDATE_CONFIDENCE then .candidate
  else if confidence ≥ config.WEAK_CONFIDENCE then .weak_candidate
  else .reject

/-- Tier order of the classification, higher demanding more confidence. -/
def classRank : Class → ℕ
  | .strong_candidate => 3
  | .candidate => 2
  | .weak_candidate => 1
  | .reject => 0

/-- The risk- and stability-based demotion chain of analyze_match
(source lines 916-924): an if/elif on the risk warning, then the
strong-margin demotion, then the candidate-stability demotion. -/
def apply_demotions (cls : Class) (risk_index stability_index stability_margin : ℚ)
    (cfg : Cfg) : Class :=
  let c1 :=
    if risk_index > cfg.RISK_WARNING_THRESHOLD ∧ cls = .strong_candidate then
      Class.candidate
    else if risk_index > cfg.RISK_WARNING_THRESHOLD ∧ cls = .candidate then
      Class.weak_candidate
    else cls
  let c2 :=
    if c1 = .strong_candidate ∧ stability_margin < cfg.STABILITY_STRONG_MARGIN then
      Class.candidate
    else c1
  if c2 = .candidate ∧ stability_index < cfg.MIN_STABILITY_INDEX + 1/10 then
    Class.weak_candidate
  else c2

/-- The effective-threshold computation of analyze_match (source lines
860-884): base requirement, minute-80/minute-70 relief (if/elif), late
window relief, low-risk relief, floored at the configured minimum. -/
def effective_threshold_calc (cfg : Cfg) (minute : ℤ) (risk_index : ℚ) : ℚ :=
  let t0 : ℚ := (config.REQUIRED_SCORE : ℚ)
  let t1 :=
    if minute ≥ 80 ∧ config.TOLERANCE_MINUTE_80 ≠ 0 then t0 - (config.TOLERANCE_MINUTE_80 : ℚ)
    else if minute ≥ 70 ∧ config.TOLERANCE_MINUTE_70 ≠ 0 then t0 - (config.TOLERANCE_MINUTE_70 : ℚ)
    else t0
  let t2 :=
    if minute ≥ cfg.LATE_WINDOW_THRESHOLD_MINUTE ∧ cfg.LATE_WINDOW_THRESHOLD_REDUCTION ≠ 0 then
      t1 - cfg.LATE_WINDOW_THRESHOLD_REDUCTION
    else t1
  let t3 :=
    if risk_index ≤ cfg.LOW_RISK_RELAXATION_THRESHOLD ∧ cfg.LOW_RISK_RELAXATION_DELTA ≠ 0 then
      t2 - cfg.LOW_RISK_RELAXATION_DELTA
    else t2
  max cfg.MINIMUM_EFFECTIVE_THRESHOLD t3

/-- The `threshold_adjustments` record that analyze_match builds next to
the effective threshold, one optional entry per relief. -/
structure ThresholdAdjusts where
  minute_80 : Option ℚ
  minute_70 : Option ℚ
  late_window : Option ℚ
  low_risk : Option ℚ
deriving DecidableEq, Repr

/-- The audit record of the individual threshold adjustments. -/
def threshold_adjustments (cfg : Cfg) (minute : ℤ) (risk_index : ℚ) : ThresholdAdjusts :=
  { minute_80 :=
      if minute ≥ 80 ∧ config.TOLERANCE_MINUTE_80 ≠ 0 then
        some (-(config.TOLERANCE_MINUTE_80 : ℚ))
      else none
    minute_70 :=
      if ¬ (minute ≥ 80 ∧ config.TOLERANCE_MINUTE_80 ≠ 0)
          ∧ minute ≥ 70 ∧ config.TOLERANCE_MINUTE_70 ≠ 0 then
        some (-(config.TOLERANCE_MINUTE_70 : ℚ))
      else none
    late_window :=
      if minute ≥ cfg.LATE_WINDOW_THRESHOLD_MINUTE
          ∧ cfg.LATE_WINDOW_THRESHOLD_REDUCTION ≠ 0 then
        some (-cfg.LATE_WINDOW_THRESHOLD_REDUCTION)
      else none
    low_risk :=
      if risk_index ≤ cfg.LOW_RISK_RELAXATION_THRESHOLD
          ∧ cfg.LOW_RISK_RELAXATION_DELTA ≠ 0 then
        some (-cfg.LOW_RISK_RELAXATION_DELTA)
      else none }

/-- One entry of the deduplication cache: the last analyzed state of a
fixture plus the confidence computed there. -/
structure CacheEntry where
  score : String
  minute : ℤ
  last_event_time : ℤ
  confidence : ℚ
deriving DecidableEq, Repr

/-- The analyzer's `analysis_cache` dictionary, keyed by fixture id. -/
abbrev Cache := List (Option ℤ × CacheEntry)

/-- Dictionary lookup over the cache (newest binding wins). -/
def cache_find : Cache → Option ℤ → Option CacheEntry
  | [], _ => none
  | (k, e) :: rest, fid => if k = fid then some e else cache_find rest fid

/-- MatchAnalyzer.check_cache: the cached confidence when the stored
(score, minute, last-event-minute) triple matches exactly, else `none`. -/
def check_cache (cache : Cache) (fixture_id : Option ℤ) (score : String)
    (minute last_event_time : ℤ) : Option ℚ :=
  match cache_find cache fixture_id with
  | none => none
  | some cached =>
    if cached.score = score ∧ cached.minute = minute
        ∧ cached.last_event_time = last_event_time then
      some cached.confidence
    else none

/-- MatchAnalyzer.update_cache: overwrite the fixture's entry. -/
def update_cache (cache : Cache) (fixture_id : Option ℤ) (score : String)
    (minute last_event_time : ℤ) (confidence : ℚ) : Cache :=
  (fixture_id, ⟨score, minute, last_event_time, confidence⟩) :: cache

/-- The analysis record analyze_match returns for a qualifying fixture
(the fields the claims inspect; the remaining dictionary entries are
either copies of these or raw statistics echoes). -/
structure AnalysisResult where
  fixtureId : Option ℤ
  minute : ℤ
  matchScore : ℤ
  confidence : ℚ
  classification : Class
  riskIndex : ℚ
  stabilityIndex : ℚ
  stabilityMargin : ℚ
  effectiveThreshold : ℚ
  adjustments : ThresholdAdjusts
  totalXg : ℚ
  secondHalfXg : ℚ
  homeXg : ℚ
  awayXg : ℚ
deriving DecidableEq, Repr

/-- Python truthiness of an optional integer id (`not home_id`). -/
def id_truthy (o : Option ℤ) : Bool :=
  match o with
  | none => false
  | some n => n ≠ 0

/-- The fixture's elapsed minute with the source's `get(..., 0)` default. -/
def fixture_minute (fx : Fixture) : ℤ :=
  fx.statusElapsed.getD 0

/-- The score string used as cache state. -/
def fixture_score_str (fx : Fixture) : String :=
  toString (fx.goals.home.getD 0) ++ "-" ++ toString (fx.goals.away.getD 0)

/-- Python `max(l, default := 0)` over a list of integers. -/
def listMaxInt : List ℤ → ℤ
  | [] => 0
  | h :: t => t.foldl max h

/-- The `last_event_time` computed from the event feed. -/
def api_last_event_time (api : ApiData) : ℤ :=
  if api.events = [] then 0
  else listMaxInt (api.events.map (fun e => e.elapsed.getD 0))

/-- The tempo metrics analyze_match computes for a fixture (source line
827; `events or []` equals the event list itself in this model). -/
def engine_tempo (fx : Fixture) (api : ApiData) : TempoMetrics :=
  calculate_tempo_metrics api.events (fixture_minute fx)

/-- The risk index analyze_match computes for a fixture (source line 828). -/
def engine_risk (cfg : Cfg) (fx : Fixture) (api : ApiData) : ℚ :=
  calculate_risk_index cfg (engine_tempo fx api)

/-- The match score analyze_match accumulates: the engine score of
calculate_match_score, less the risk warning penalty (clipped at zero,
source lines 838-840), plus the team-form point and the head-to-head
point (source lines 843-857). -/
def engine_match_score (cfg : Cfg) (fx : Fixture) (api : ApiData) : ℤ :=
  let base := (calculate_match_score api.stats api.events fx.goals (fixture_minute fx)
    (calculate_xg_from_stats api.stats).1 (calculate_xg_from_stats api.stats).2.1
    (calculate_xg_from_stats api.stats).2.2).1
  let ms1 :=
    if engine_risk cfg fx api > cfg.RISK_WARNING_THRESHOLD then max 0 (base - 1) else base
  let ms2 :=
    if analyze_team_form api.homeForm (fx.homeId.getD 0) ≤ config.MAX_TEAM_NPXG
        ∧ analyze_team_form api.awayForm (fx.awayId.getD 0) ≤ config.MAX_TEAM_NPXG then
      ms1 + 1
    else ms1
  if analyze_h2h_history api.h2h ≤ config.MAX_H2H_AVG_GOALS then ms2 + 1 else ms2

/-- The effective threshold analyze_match computes (source lines 860-884). -/
def engine_threshold (cfg : Cfg) (fx : Fixture) (api : ApiData) : ℚ :=
  effective_threshold_calc cfg (fixture_minute fx) (engine_risk cfg fx api)

/-- The stability pair analyze_match computes (source lines 894-899). -/
def engine_stability (cfg : Cfg) (fx : Fixture) (api : ApiData) : ℚ × ℚ :=
  calculate_stability_index cfg (engine_match_score cfg fx api)
    (engine_threshold cfg fx api) (engine_risk cfg fx api) (engine_tempo fx api)

/-- The unrounded confidence analyze_match computes (source line 913). -/
def engine_confidence (cfg : Cfg) (fx : Fixture) (api : ApiData) : ℚ :=
  (engine_match_score cfg fx api : ℚ) / (config.MAX_TOTAL_SCORE : ℚ)

/-- The classification after the risk and stability demotions (source
lines 914-924). -/
def engine_classification (cfg : Cfg) (fx : Fixture) (api : ApiData) : Class :=
  apply_demotions (classify_confidence (engine_confidence cfg fx api))
    (engine_risk cfg fx api) (engine_stability cfg fx api).1
    (engine_stability cfg fx api).2 cfg

/-- The part of analyze_match after the cache check: scoring, risk,
team form, head-to-head, threshold, stability, classification, in the
source's rejection order (lines 832, 890, 903, 926, 932).  Returns the
result together with the unrounded confidence that the source stores
into the cache. -/
def analyze_core (cfg : Cfg) (fx : Fixture) (api : ApiData) :
    Option (AnalysisResult × ℚ) :=
  if engine_risk cfg fx api > cfg.MAX_RISK_INDEX then none
  else if (engine_match_score cfg fx api : ℚ) < engine_threshold cfg fx api then none
  else if (engine_stability cfg fx api).1 < cfg.MIN_STABILITY_INDEX
      ∧ (engine_stability cfg fx api).2 < cfg.STABILITY_MARGIN_RECOVERY then none
  else if engine_classification cfg fx api = .weak_candidate
      ∧ (engine_stability cfg fx api).1 < cfg.MIN_STABILITY_INDEX then none
  else if engine_classification cfg fx api = .reject then none
  else
    some
      ({ fixtureId := fx.fixtureId
         minute := fixture_minute fx
         matchScore := engine_match_score cfg fx api
         confidence := pyRound (engine_confidence cfg fx api) 2
         classification := engine_classification cfg fx api
         riskIndex := engine_risk cfg fx api
         stabilityIndex := (engine_stability cfg fx api).1
         stabilityMargin := (engine_stability cfg fx api).2
         effectiveThreshold := engine_threshold cfg fx api
         adjustments := threshold_adjustments cfg (fixture_minute fx) (engine_risk cfg fx api)
         totalXg := (calculate_xg_from_stats api.stats).1
         secondHalfXg := (calculate_xg_from_stats api.stats).2.1
         homeXg := (calculate_xg_from_stats api.stats).2.2.1
         awayXg := (calculate_xg_from_stats api.stats).2.2.2 },
       engine_confidence cfg fx api)

/-- MatchAnalyzer.analyze_match: validation, score filters, statistics
presence, deduplication cache, then the core analysis; the cache is
threaded explicitly, written only when a result is about to be
reported. -/
def analyze_match (cfg : Cfg) (cache : Cache) (fx : Fixture) (api : ApiData) :
    Option AnalysisResult × Cache :=
  if ¬ (id_truthy fx.homeId ∧ id_truthy fx.awayId) then (none, cache)
  else if (fx.goals.home.getD 0, fx.goals.away.getD 0) ∈ config.EXCLUDED_SCORES then
    (none, cache)
  else if (fx.goals.home.getD 0, fx.goals.away.getD 0) ∉ config.ALLOWED_SCORES
      ∧ (fx.goals.home.getD 0, fx.goals.away.getD 0)
          ∉ config.ALLOWED_SCORES.map (fun p => (p.2, p.1)) then (none, cache)
  else if api.stats = [] then (none, cache)
  else if (check_cache cache fx.fixtureId (fixture_score_str fx) (fixture_minute fx)
      (api_last_event_time api)).isSome then (none, cache)
  else
    match analyze_core cfg fx api with
    | none => (none, cache)
    | some rc =>
      (some rc.1, update_cache cache fx.fixtureId (fixture_score_str fx)
        (fixture_minute fx) (api_last_event_time api) rc.2)

/-
  Concrete scenarios used by the witnesses and counterexamples below.
  Scenario 1 is a calm, one-goal-lead fixture at minute 70 that scores
  the full 30 engine points and qualifies; scenario 4 is a borderline
  fixture at minute 65 that ends as a weak candidate with low stability
  but a comfortable margin.
-/

/-- Home statistics of scenario 1. -/
def homeStats1 : TeamStats := ⟨[
  ⟨"Total Shots", .pint 4⟩,
  ⟨"Shots on Goal", .pint 1⟩,
  ⟨"Blocked Shots", .pint 2⟩,
  ⟨"Fouls", .pint 5⟩,
  ⟨"Total passes", .pint 250⟩,
  ⟨"Ball Possession", .pstr "56%"⟩,
  ⟨"Passes %", .pstr "85%"⟩]⟩

/-- Away statistics of scenario 1. -/
def awayStats1 : TeamStats := ⟨[
  ⟨"Total Shots", .pint 3⟩,
  ⟨"Shots on Goal", .pint 1⟩,
  ⟨"Blocked Shots", .pint 2⟩,
  ⟨"Fouls", .pint 5⟩,
  ⟨"Total passes", .pint 250⟩,
  ⟨"Ball Possession", .pstr "44%"⟩,
  ⟨"Passes %", .pstr "82%"⟩]⟩

/-- Statistics of scenario 1. -/
def stats1 : List TeamStats := [homeStats1, awayStats1]

/-- Events of scenario 1: one early off-target shot, two corners. -/
def ev1 : List Event := [
  ⟨some 61, "Shot", "Missed Shot"⟩,
  ⟨some 62, "", "Corner"⟩,
  ⟨some 63, "", "Corner"⟩]

/-- Fixture of scenario 1: minute 70, score 1-0. -/
def fix1 : Fixture :=
  { fixtureId := some 1001, statusElapsed := some 70,
    homeId := some 10, awayId := some 20,
    goals := ⟨some 1, some 0⟩ }

/-- Collaborator responses of scenario 1. -/
def api1 : ApiData :=
  { stats := stats1, events := ev1, homeForm := [], awayForm := [],
    h2h := [⟨true, some 1, some 0⟩] }

/-- A concrete instantiation of the spec-modelled configuration
constants, with the hard risk ceiling 0.85 of the spec's example. -/
def cfg1 : Cfg :=
  { RISK_DANGEROUS_ACTIONS_CAP := 10
    RISK_PRESSURE_EVENTS_CAP := 8
    RISK_CARD_EVENTS_CAP := 3
    RISK_SLOPE_CAP := 3/10
    RISK_TEMPO_WEIGHT := 35/100
    RISK_PRESSURE_WEIGHT := 25/100
    RISK_CARD_WEIGHT := 2/10
    RISK_XG_SLOPE_WEIGHT := 2/10
    MAX_RISK_INDEX := 85/100
    RISK_WARNING_THRESHOLD := 6/10
    STABILITY_MARGIN_NORMALIZER := 6
    STABILITY_RISK_WEIGHT := 35/100
    STABILITY_TEMPO_WEIGHT := 3/10
    STABILITY_CARD_WEIGHT := 2/10
    MIN_STABILITY_INDEX := 35/100
    STABILITY_MARGIN_RECOVERY := 1
    STABILITY_STRONG_MARGIN := 2
    LATE_WINDOW_THRESHOLD_MINUTE := 75
    LATE_WINDOW_THRESHOLD_REDUCTION := 1
    LOW_RISK_RELAXATION_THRESHOLD := 3/10
    LOW_RISK_RELAXATION_DELTA := 1
    MINIMUM_EFFECTIVE_THRESHOLD := 8 }

/-- Home statistics of scenario 4 (explicit expected-goals figures). -/
def homeStats4 : TeamStats := ⟨[
  ⟨"Expected Goals", .prat (12/10)⟩,
  ⟨"Total Shots", .pint 6⟩,
  ⟨"Shots on Goal", .pint 2⟩,
  ⟨"Corner Kicks", .pint 4⟩,
  ⟨"Fouls", .pint 10⟩,
  ⟨"Ball Possession", .pstr "55%"⟩,
  ⟨"Passes %", .pstr "70%"⟩]⟩

/-- Away statistics of scenario 4. -/
def awayStats4 : TeamStats := ⟨[
  ⟨"Expected Goals", .prat (12/10)⟩,
  ⟨"Total Shots", .pint 5⟩,
  ⟨"Shots on Goal", .pint 2⟩,
  ⟨"Corner Kicks", .pint 4⟩,
  ⟨"Fouls", .pint 10⟩,
  ⟨"Ball Possession", .pstr "45%"⟩,
  ⟨"Passes %", .pstr "70%"⟩]⟩

/-- Statistics of scenario 4. -/
def stats4 : List TeamStats := [homeStats4, awayStats4]

/-- Events of scenario 4: a single recent yellow card. -/
def ev4 : List Event := [⟨some 60, "Card", "Yellow Card"⟩]

/-- Fixture of scenario 4: minute 65, score 1-0. -/
def fix4 : Fixture :=
  { fixtureId := some 2002, statusElapsed := some 65,
    homeId := some 30, awayId := some 40,
    goals := ⟨some 1, some 0⟩ }

/-- Collaborator responses of scenario 4 (attack-heavy recent form and
head-to-head history, so neither form point is granted). -/
def api4 : ApiData :=
  { stats := stats4, events := ev4,
    homeForm := [⟨true, true, some 30, some 5, some 0⟩],
    awayForm := [⟨true, true, some 77, some 0, some 4⟩],
    h2h := [⟨true, some 3, some 2⟩] }

/-- A second instantiation of the spec-modelled constants, with a heavy
stability card weight and a tight card cap. -/
def cfg2 : Cfg :=
  { RISK_DANGEROUS_ACTIONS_CAP := 10
    RISK_PRESSURE_EVENTS_CAP := 8
    RISK_CARD_EVENTS_CAP := 1
    RISK_SLOPE_CAP := 3/10
    RISK_TEMPO_WEIGHT := 35/100
    RISK_PRESSURE_WEIGHT := 25/100
    RISK_CARD_WEIGHT := 5/100
    RISK_XG_SLOPE_WEIGHT := 2/10
    MAX_RISK_INDEX := 85/100
    RISK_WARNING_THRESHOLD := 5/10
    STABILITY_MARGIN_NORMALIZER := 6
    STABILITY_RISK_WEIGHT := 35/100
    STABILITY_TEMPO_WEIGHT := 3/10
    STABILITY_CARD_WEIGHT := 5/10
    MIN_STABILITY_INDEX := 35/100
    STABILITY_MARGIN_RECOVERY := 1
    STABILITY_STRONG_MARGIN := 2
    LATE_WINDOW_THRESHOLD_MINUTE := 75
    LATE_WINDOW_THRESHOLD_REDUCTION := 1
    LOW_RISK_RELAXATION_THRESHOLD := 3/10
    LOW_RISK_RELAXATION_DELTA := 0
    MINIMUM_EFFECTIVE_THRESHOLD := 8 }

/-
  The actual-configuration risk path.  src/config.py defines none of the
  risk constants, so in Python `config.RISK_DANGEROUS_ACTIONS_CAP`
  raises AttributeError; attribute lookup is modelled as a partial map
  and calculate_risk_index as the fallible computation it really is.
-/

/-- Attribute lookup of the numeric module-level constants of
src/config.py (the risk path only ever requests numeric attributes;
string, list and boolean constants are irrelevant to it and omitted).
`none` models Python's AttributeError. -/
def config_numeric_attr (name : String) : Option ℚ :=
  if name = "DAILY_REQUEST_LIMIT" then some 7500
  else if name = "HOURLY_REQUEST_BUDGET" then some 312
  else if name = "EMERGENCY_BUFFER" then some 500
  else if name = "MAX_REQUESTS_PER_SCAN" then some 20
  else if name = "BASE_SCAN_INTERVAL" then some 60
  else if name = "OFF_PEAK_INTERVAL" then some 60
  else if name = "PEAK_HOURS_START" then some 8
  else if name = "PEAK_HOURS_END" then some 1
  else if name = "MIN_MINUTE" then some 60
  else if name = "MAX_MINUTE" then some 72
  else if name = "MIN_MINUTE_EXTENDED" then some 58
  else if name = "MAX_MINUTE_EXTENDED" then some 75
  else if name = "REQUIRED_SCORE" then some 12
  else if name = "MAX_TOTAL_SCORE" then some 30
  else if name = "STRONG_CONFIDENCE" then some (70/100)
  else if name = "CANDIDATE_CONFIDENCE" then some (55/100)
  else if name = "WEAK_CONFIDENCE" then some (45/100)
  else if name = "MAX_COMBINED_XG" then some (22/10)
  else if name = "MAX_TOTAL_SHOTS" then some 14
  else if name = "MAX_SHOTS_ON_TARGET" then some 5
  else if name = "MAX_CORNERS" then some 7
  else if name = "MAX_POSSESSION_DIFF" then some 18
  else if name = "MAX_SECOND_HALF_XG" then some (6/10)
  else if name = "MAX_SECOND_HALF_SHOTS" then some 5
  else if name = "MAX_SECOND_HALF_SHOTS_ON_TARGET" then some 2
  else if name = "MAX_LAST_15MIN_SHOTS" then some 3
  else if name = "MAX_SECOND_HALF_CORNERS" then some 3
  else if name = "MAX_SECOND_HALF_POSSESSION_DIFF" then some 15
  else if name = "MAX_TEAM_NPXG" then some (13/10)
  else if name = "MAX_H2H_AVG_GOALS" then some (21/10)
  else if name = "PENALTY_RED_CARD_WITH_PRESSURE" then some (-3)
  else if name = "PENALTY_XG_DIFF" then some (-2)
  else if name = "PENALTY_SECOND_HALF_PENALTY" then some (-4)
  else if name = "PENALTY_XG_SLOPE_RISING" then some (-3)
  else if name = "MAX_XG_DIFFERENCE" then some (13/10)
  else if name = "BONUS_FIRST_HALF_MIN_GOALS" then some 2
  else if name = "BONUS_SECOND_HALF_MAX_XG" then some (5/10)
  else if name = "MAX_XG_SLOPE_LAST10" then some 0
  else if name = "TURNOVERS_DOWN_THRESHOLD" then some (15/100)
  else if name = "ATTACK_CONVERSION_DOWN_THRESHOLD" then some (20/100)
  else if name = "LEAD_KILL_MODE_THRESHOLD" then some (60/100)
  else if name = "DRAW_MODE_THRESHOLD" then some (30/100)
  else if name = "FALSE_PRESSURE_CORNERS_LAST10" then some 2
  else if name = "FALSE_PRESSURE_XG_PER_SHOT" then some (8/100)
  else if name = "FALSE_PRESSURE_ON_TARGET" then some 1
  else if name = "COMPACT_DEFENSE_POSS_DIFF" then some 15
  else if name = "COMPACT_DEFENSE_POSS_VAR" then some 7
  else if name = "SHOT_QUALITY_DISTANCE_INCREASE" then some (12/10)
  else if name = "SHOT_QUALITY_BLOCKED_RATIO" then some (45/100)
  else if name = "TOLERANCE_MINUTE_70" then some 1
  else if name = "TOLERANCE_MINUTE_80" then some 2
  else if name = "CACHE_DELTA_CONFIDENCE" then some (6/100)
  else if name = "MATCH_MEMORY_HOURS" then some 24
  else if name = "MAX_RETRIES" then some 3
  else if name = "RETRY_BACKOFF_FACTOR" then some 2
  else if name = "REQUEST_TIMEOUT" then some 10
  else if name = "TELEGRAM_POLL_INTERVAL" then some 1
  else none

/-- Python attribute access `config.<name>`: the value, or an
AttributeError. -/
def getConfigAttr (name : String) : Except String ℚ :=
  match config_numeric_attr name with
  | some v => Except.ok v
  | none => Except.error ("AttributeError: module config has no attribute " ++ name)

/-- MatchAnalyzer.calculate_risk_index exactly as it runs against
src/config.py: each constant is fetched from the module in the source's
evaluation order, and a missing attribute aborts the computation. -/
def calculate_risk_index_srcconfig (tempo_metrics : TempoMetrics) :
    Except String ℚ := do
  let dangerous_cap ← getConfigAttr "RISK_DANGEROUS_ACTIONS_CAP"
  let tempo_score := min 1 ((tempo_metrics.dangerous_actions : ℚ) / max 1 dangerous_cap)
  let pressure_cap ← getConfigAttr "RISK_PRESSURE_EVENTS_CAP"
  let pressure_score := min 1 ((tempo_metrics.pressure_events : ℚ) / max 1 pressure_cap)
  let card_cap ← getConfigAttr "RISK_CARD_EVENTS_CAP"
  let card_score := min 1 ((tempo_metrics.cards_recent : ℚ) / max 1 card_cap)
  let slope_cap ← getConfigAttr "RISK_SLOPE_CAP"
  let slope_score := min 1 (max 0 tempo_metrics.xg_slope / max (1/100) slope_cap)
  let tempo_weight ← getConfigAttr "RISK_TEMPO_WEIGHT"
  let pressure_weight ← getConfigAttr "RISK_PRESSURE_WEIGHT"
  let card_weight ← getConfigAttr "RISK_CARD_WEIGHT"
  let slope_weight ← getConfigAttr "RISK_XG_SLOPE_WEIGHT"
  let risk_index := tempo_score * tempo_weight + pressure_score * pressure_weight
    + card_score * card_weight + slope_score * slope_weight
  pure (pyRound (min 1 risk_index) 3)

/-
  Concrete inputs for the extractor and estimator claims.
-/

/-- A team whose only entry for `Total Shots` is the unparseable string
`"abc"`. -/
def statsAbc : List TeamStats := [⟨[⟨"Total Shots", .pstr "abc"⟩]⟩]

/-- Two teams with explicit expected-goals figures 0.2 and 0.15. -/
def stats7 : List TeamStats :=
  [⟨[⟨"xG", .prat (2/10)⟩]⟩, ⟨[⟨"xG", .prat (15/100)⟩]⟩]

/-- Two teams whose only `Corner Kicks` readings are genuine zeroes. -/
def stats9 : List TeamStats :=
  [⟨[⟨"Corner Kicks", .pint 0⟩]⟩, ⟨[⟨"Corner Kicks", .pint 0⟩]⟩]

/-- A placeholder analysis result (used only as an `Option.getD`
fallback when naming a concrete run's result). -/
def emptyResult : AnalysisResult :=
  { fixtureId := none, minute := 0, matchScore := 0, confidence := 0,
    classification := .reject, riskIndex := 0, stabilityIndex := 0,
    stabilityMargin := 0, effectiveThreshold := 0,
    adjustments := ⟨none, none, none, none⟩, totalXg := 0, secondHalfXg := 0,
    homeXg := 0, awayXg := 0 }

/-- The result reported in scenario 1. -/
def r1 : AnalysisResult :=
  ((analyze_match cfg1 [] fix1 api1).1).getD emptyResult

/-- The cache state after scenario 1's analysis. -/
def c1after : Cache :=
  (analyze_match cfg1 [] fix1 api1).2

/-
  Helper lemmas about the scoring engine.
-/

theorem score_band_le (v : ℚ) (bands : List (ℚ × ℤ)) (d M : ℤ)
    (hd : d ≤ M) (hb : ∀ p ∈ bands, p.2 ≤ M) : score_band v bands d ≤ M := by
  induction bands with
  | nil => simpa [score_band] using hd
  | cons b rest ih =>
    simp only [score_band]
    split
    · exact hb b (List.mem_cons_self _ _)
    · exact ih (fun p hp => hb p (List.mem_cons_of_mem _ hp))

theorem total_xg_points_mem (x : ℚ) : 0 ≤ total_xg_points x ∧ total_xg_points x ≤ 3 := by
  simp only [total_xg_points, score_band]
  split_ifs <;> norm_num

theorem total_shots_points_mem (n : ℤ) :
    0 ≤ total_shots_points n ∧ total_shots_points n ≤ 2 := by
  simp only [total_shots_points, score_band]
  split_ifs <;> norm_num

theorem shots_on_target_points_mem (n : ℤ) :
    0 ≤ shots_on_target_points n ∧ shots_on_target_points n ≤ 2 := by
  simp only [shots_on_target_points, score_band]
  split_ifs <;> norm_num

theorem corners_points_mem (n : ℤ) : 0 ≤ corners_points n ∧ corners_points n ≤ 1 := by
  simp only [corners_points, score_band]
  split_ifs <;> norm_num

theorem possession_points_mem (n : ℤ) :
    0 ≤ possession_points n ∧ possession_points n ≤ 1 := by
  simp only [possession_points, score_band]
  split_ifs <;> norm_num

theorem second_half_xg_points_mem (x : ℚ) :
    0 ≤ second_half_xg_points x ∧ second_half_xg_points x ≤ 3 := by
  simp only [second_half_xg_points, score_band]
  split_ifs <;> norm_num

theorem second_half_shots_points_mem (n : ℤ) :
    0 ≤ second_half_shots_points n ∧ second_half_shots_points n ≤ 2 := by
  simp only [second_half_shots_points, score_band]
  split_ifs <;> norm_num

theorem second_half_sot_points_mem (n : ℤ) :
    0 ≤ second_half_sot_points n ∧ second_half_sot_points n ≤ 2 := by
  simp only [second_half_sot_points, score_band]
  split_ifs <;> norm_num

theorem last15_points_mem (n : ℤ) : 0 ≤ last15_points n ∧ last15_points n ≤ 2 := by
  simp only [last15_points, score_band]
  split_ifs <;> norm_num

theorem ite_pts_mem (c : Prop) [Decidable c] (k : ℤ) (hk : 0 ≤ k) :
    0 ≤ (if c then k else 0) ∧ (if c then k else 0) ≤ k := by
  split_ifs <;> omega

/-- The lead-kill-mode and draw-mode points can never both fire: the
former requires a lead, the latter a level score. -/
theorem lead_draw_exclusive (stats : List TeamStats) (goals_data : Goals) :
    ¬ (check_lead_kill_mode stats goals_data = true
        ∧ check_draw_mode stats goals_data = true) := by
  rintro ⟨hl, hd⟩
  rcases eq_or_ne (goals_data.home.getD 0) (goals_data.away.getD 0) with h | h
  · rw [check_lead_kill_mode, if_pos h] at hl
    exact Bool.false_ne_true hl
  · rw [check_draw_mode, if_pos h] at hd
    exact Bool.false_ne_true hd

theorem penalties_nonpos (a b c d : Prop) [Decidable a] [Decidable b] [Decidable c]
    [Decidable d] :
    (if a then config.PENALTY_RED_CARD_WITH_PRESSURE else 0)
      + (if b then config.PENALTY_XG_DIFF else 0)
      + (if c then config.PENALTY_SECOND_HALF_PENALTY else 0)
      + (if d then config.PENALTY_XG_SLOPE_RISING else 0) ≤ 0 := by
  simp only [config.PENALTY_RED_CARD_WITH_PRESSURE, config.PENALTY_XG_DIFF,
    config.PENALTY_SECOND_HALF_PENALTY, config.PENALTY_XG_SLOPE_RISING]
  split_ifs <;> norm_num

/-- The engine score of calculate_match_score is clipped to
`[0, MAX_TOTAL_SCORE]`: every criterion is bounded by its band maximum,
the two psychological points are mutually exclusive, and the penalties
are nonpositive. -/
theorem calculate_match_score_bounds (stats : List TeamStats) (events : List Event)
    (goals_data : Goals) (minute : ℤ) (combined_xg second_half_xg : ℚ)
    (team_xg_split : ℚ × ℚ) :
    0 ≤ (calculate_match_score stats events goals_data minute combined_xg
          second_half_xg team_xg_split).1 ∧
      (calculate_match_score stats events goals_data minute combined_xg
          second_half_xg team_xg_split).1 ≤ config.MAX_TOTAL_SCORE := by
  unfold calculate_match_score
  split
  · simp [config.MAX_TOTAL_SCORE]
  · dsimp only
    constructor
    · exact le_max_left 0 _
    · rw [config.MAX_TOTAL_SCORE]
      apply max_le (by norm_num)
      have h1 := total_xg_points_mem combined_xg
      have h2 := total_shots_points_mem (pyOr (extract_statistic stats "Total Shots" none) 0)
      have h3 := shots_on_target_points_mem
        (pyOr (extract_statistic stats "Shots on Goal" none) 0)
      have h4 := corners_points_mem (pyOr (extract_statistic stats "Corner Kicks" none) 0)
      have h5 := possession_points_mem
        (|pyOr (extract_statistic stats "Ball Possession" (some 0)) 50
          - pyOr (extract_statistic stats "Ball Possession" (some 1)) 50|)
      have h6 := second_half_xg_points_mem second_half_xg
      have h7 := second_half_shots_points_mem
        (if count_events_in_range events 45 minute is_shot_event = 0 ∧ events = [] then
          pyTrunc ((pyOr (extract_statistic stats "Total Shots" none) 0 : ℚ) * (45/100))
        else count_events_in_range events 45 minute is_shot_event)
      have h8 := second_half_sot_points_mem
        (if count_events_in_range events 45 minute is_shot_on_target_event = 0
            ∧ events = [] then
          pyTrunc ((pyOr (extract_statistic stats "Shots on Goal" none) 0 : ℚ) * (5/10))
        else count_events_in_range events 45 minute is_shot_on_target_event)
      have h9 := last15_points_mem
        (if count_events_in_range events (minute - 15) minute is_shot_event = 0
            ∧ events = [] then
          pyTrunc ((pyOr (extract_statistic stats "Total Shots" none) 0 : ℚ) * (2/10))
        else count_events_in_range events (minute - 15) minute is_shot_event)
      have h10 := ite_pts_mem
        ((if count_events_in_range events 45 minute (fun e => lowerStr e.detail == "corner") = 0
              ∧ pyOr (extract_statistic stats "Corner Kicks" none) 0 ≠ 0 ∧ events = [] then
            pyTrunc ((pyOr (extract_statistic stats "Corner Kicks" none) 0 : ℚ) * (5/10))
          else count_events_in_range events 45 minute (fun e => lowerStr e.detail == "corner"))
          ≤ config.MAX_SECOND_HALF_CORNERS) 1 (by norm_num)
      have h11 := ite_pts_mem
        (((|pyOr (extract_statistic stats "Ball Possession" (some 0)) 50
            - pyOr (extract_statistic stats "Ball Possession" (some 1)) 50| : ℤ) : ℚ)
          ≤ config.MAX_SECOND_HALF_POSSESSION_DIFF) 1 (by norm_num)
      have h12 := ite_pts_mem
        (calculate_xg_slope events minute ≤ config.MAX_XG_SLOPE_LAST10) 2 (by norm_num)
      have h13 := ite_pts_mem (check_turnovers_decreasing stats = true) 1 (by norm_num)
      have h14 := ite_pts_mem (check_attack_conversion_down stats = true) 1 (by norm_num)
      have h15 := ite_pts_mem (check_fouls_and_pass_speed_down stats events = true) 1
        (by norm_num)
      have h16 := ite_pts_mem (check_lead_kill_mode stats goals_data = true) 2 (by norm_num)
      have h17 := ite_pts_mem (check_draw_mode stats goals_data = true) 1 (by norm_num)
      have h18 := ite_pts_mem (check_false_pressure events minute = true) 1 (by norm_num)
      have h19 := ite_pts_mem
        (check_compact_defense stats
          ((|pyOr (extract_statistic stats "Ball Possession" (some 0)) 50
            - pyOr (extract_statistic stats "Ball Possession" (some 1)) 50| : ℤ) : ℚ) = true)
        1 (by norm_num)
      have h20 := ite_pts_mem (check_shot_quality_collapse stats = true) 1 (by norm_num)
      have hpen := penalties_nonpos (check_red_card_with_pressure events minute = true)
        (|team_xg_split.1 - team_xg_split.2| > config.MAX_XG_DIFFERENCE)
        (check_second_half_penalty events = true)
        (calculate_xg_slope events minute > 1/10)
      have hex : ¬ (check_lead_kill_mode stats goals_data = true
          ∧ check_draw_mode stats goals_data = true) :=
        lead_draw_exclusive stats goals_data
      have hld : (if check_lead_kill_mode stats goals_data = true then (2:ℤ) else 0)
          + (if check_draw_mode stats goals_data = true then (1:ℤ) else 0) ≤ 2 := by
        split_ifs with hA hB
        · exact absurd ⟨hA, hB⟩ hex
        · norm_num
        · norm_num
        · norm_num
      linarith [h1.1, h1.2, h2.1, h2.2, h3.1, h3.2, h4.1, h4.2, h5.1, h5.2, h6.1, h6.2,
        h7.1, h7.2, h8.1, h8.2, h9.1, h9.2, h10.1, h10.2, h11.1, h11.2, h12.1, h12.2,
        h13.1, h13.2, h14.1, h14.2, h15.1, h15.2, h16.1, h16.2, h17.1, h17.2,
        h18.1, h18.2, h19.1, h19.2, h20.1, h20.2, hpen, hld]

/-- The demotion chain never raises the classification tier. -/
theorem apply_demotions_le (cls : Class) (r s m : ℚ) (cfg : Cfg) :
    classRank (apply_demotions cls r s m cfg) ≤ classRank cls := by
  cases cls <;> unfold apply_demotions <;> dsimp only <;> split_ifs <;>
    simp_all [classRank]

/-- The score analyze_match accumulates stays within `[0, 32]`: the
clipped engine score plus at most the two form points. -/
theorem engine_match_score_bounds (cfg : Cfg) (fx : Fixture) (api : ApiData) :
    0 ≤ engine_match_score cfg fx api
      ∧ engine_match_score cfg fx api ≤ config.MAX_TOTAL_SCORE + 2 := by
  have hb := calculate_match_score_bounds api.stats api.events fx.goals
    (fixture_minute fx) (calculate_xg_from_stats api.stats).1
    (calculate_xg_from_stats api.stats).2.1 (calculate_xg_from_stats api.stats).2.2
  rw [config.MAX_TOTAL_SCORE] at hb
  simp only [config.MAX_TOTAL_SCORE]
  unfold engine_match_score
  dsimp only
  split_ifs <;> omega

/-- Inversion of the core analysis: any reported result respects the
weak-stability gate, never out-ranks the base confidence band of its
accumulated score, and its score lies in `[0, MAX_TOTAL_SCORE + 2]`. -/
theorem analyze_core_result (cfg : Cfg) (fx : Fixture) (api : ApiData)
    (r : AnalysisResult) (q : ℚ) (h : analyze_core cfg fx api = some (r, q)) :
    (¬ (r.classification = Class.weak_candidate
        ∧ r.stabilityIndex < cfg.MIN_STABILITY_INDEX))
    ∧ classRank r.classification
        ≤ classRank (classify_confidence
            ((r.matchScore : ℚ) / (config.MAX_TOTAL_SCORE : ℚ)))
    ∧ 0 ≤ r.matchScore ∧ r.matchScore ≤ config.MAX_TOTAL_SCORE + 2 := by
  unfold analyze_core at h
  repeat' split at h
  all_goals try exact Option.noConfusion h
  rename_i hrisk hscore hstab hweak hreject
  simp only [Option.some.injEq, Prod.mk.injEq] at h
  obtain ⟨hr, hq⟩ := h
  subst hr
  refine ⟨?_, ?_, ?_⟩
  · dsimp only
    exact hweak
  · dsimp only
    exact apply_demotions_le (classify_confidence (engine_confidence cfg fx api))
      (engine_risk cfg fx api) (engine_stability cfg fx api).1
      (engine_stability cfg fx api).2 cfg
  · dsimp only
    exact engine_match_score_bounds cfg fx api

/-- Inversion of the orchestrator: a reported result comes from the core
analysis, and the new cache is exactly the overwrite of the fixture's
entry with the current state triple and the unrounded confidence. -/
theorem analyze_match_some (cfg : Cfg) (cache : Cache) (fx : Fixture) (api : ApiData)
    (r : AnalysisResult) (c2 : Cache)
    (h : analyze_match cfg cache fx api = (some r, c2)) :
    ∃ q, analyze_core cfg fx api = some (r, q)
      ∧ c2 = update_cache cache fx.fixtureId (fixture_score_str fx) (fixture_minute fx)
          (api_last_event_time api) q := by
  unfold analyze_match at h
  repeat' split at h
  all_goals try exact Option.noConfusion (congrArg Prod.fst h)
  rename_i rc heq
  simp only [Prod.mk.injEq, Option.some.injEq] at h
  obtain ⟨hr, hc⟩ := h
  subst hr
  subst hc
  exact ⟨rc.2, by rw [heq], rfl⟩

/-- The orchestrator either rejects and leaves the cache untouched, or
reports a result and overwrites the fixture's cache entry. -/
theorem analyze_match_cases (cfg : Cfg) (cache : Cache) (fx : Fixture) (api : ApiData) :
    ((analyze_match cfg cache fx api).1 = none
        ∧ (analyze_match cfg cache fx api).2 = cache)
    ∨ (∃ r q, analyze_match cfg cache fx api
        = (some r, update_cache cache fx.fixtureId (fixture_score_str fx)
            (fixture_minute fx) (api_last_event_time api) q)) := by
  unfold analyze_match
  repeat' split
  all_goals first
    | (left; exact ⟨rfl, rfl⟩)
    | (rename_i rc heq; right; exact ⟨rc.1, rc.2, rfl⟩)

theorem check_cache_after_update (cache : Cache) (fid : Option ℤ) (s : String)
    (m l : ℤ) (q : ℚ) :
    check_cache (update_cache cache fid s m l q) fid s m l = some q := by
  simp [check_cache, update_cache, cache_find]

/-- After a reported analysis, re-analyzing the identical state is
suppressed by the deduplication cache. -/
theorem analyze_match_suppresses (cfg : Cfg) (cache : Cache) (fx : Fixture)
    (api : ApiData) (r : AnalysisResult) (c2 : Cache)
    (h : analyze_match cfg cache fx api = (some r, c2)) :
    (analyze_match cfg c2 fx api).1 = none := by
  obtain ⟨q, _, hc2⟩ := analyze_match_some cfg cache fx api r c2 h
  subst hc2
  have hknown : (check_cache (update_cache cache fx.fixtureId (fixture_score_str fx)
      (fixture_minute fx) (api_last_event_time api) q) fx.fixtureId
      (fixture_score_str fx) (fixture_minute fx) (api_last_event_time api)).isSome
      = true := by
    rw [check_cache_after_update]
    rfl
  unfold analyze_match
  simp only [hknown]
  repeat' split
  all_goals first
    | rfl
    | (exact absurd trivial ‹¬True›)

/-- When the stored triple does not match, the cache has no influence on
the outcome: the analysis equals the one from an empty cache. -/
theorem analyze_match_recompute (cfg : Cfg) (cache : Cache) (fx : Fixture)
    (api : ApiData)
    (hmiss : check_cache cache fx.fixtureId (fixture_score_str fx) (fixture_minute fx)
      (api_last_event_time api) = none) :
    (analyze_match cfg cache fx api).1 = (analyze_match cfg [] fx api).1 := by
  have hempty : check_cache ([] : Cache) fx.fixtureId (fixture_score_str fx)
      (fixture_minute fx) (api_last_event_time api) = none := rfl
  unfold analyze_match
  simp only [hmiss, hempty, Option.isSome_none, Bool.false_eq_true]
  repeat' split
  all_goals rfl

/-
  Helper lemmas about the extractor and the estimator.
-/

theorem extract_from_list_none (l : List StatEntry) (name : String)
    (h : ∀ s ∈ l, s.type = name → statEffective s.value = false) :
    extract_from_list l name = none := by
  induction l with
  | nil => rfl
  | cons s rest ih =>
    rw [extract_from_list]
    rw [if_neg]
    · exact ih (fun x hx => h x (List.mem_cons_of_mem _ hx))
    · rintro ⟨ht, he⟩
      rw [h s (List.mem_cons_self _ _) ht] at he
      exact Bool.false_ne_true he

theorem extract_from_list_found (pre post : List StatEntry) (name : String) (v : PyVal)
    (hpre : ∀ s ∈ pre, s.type = name → statEffective s.value = false)
    (hv : statEffective v = true) :
    extract_from_list (pre ++ ⟨name, v⟩ :: post) name = some (statValueToInt v) := by
  induction pre with
  | nil =>
    rw [List.nil_append, extract_from_list, if_pos ⟨rfl, hv⟩]
  | cons s rest ih =>
    rw [List.cons_append, extract_from_list, if_neg]
    · exact ih (fun x hx => hpre x (List.mem_cons_of_mem _ hx))
    · rintro ⟨ht, he⟩
      rw [hpre s (List.mem_cons_self _ _) ht] at he
      exact Bool.false_ne_true he

theorem sum_stat_list_zero (l : List StatEntry) (name : String)
    (h : ∀ s ∈ l, s.type = name → s.value = .pint 0) :
    sum_stat_list l name = 0 := by
  have key : ∀ (acc : ℤ), l.foldl
      (fun acc s =>
        if s.type = name ∧ statEffective s.value then acc + statValueToInt s.value
        else acc) acc = acc := by
    induction l with
    | nil => intro acc; rfl
    | cons s rest ih =>
      intro acc
      rw [List.foldl_cons, if_neg]
      · exact ih (fun x hx => h x (List.mem_cons_of_mem _ hx)) acc
      · rintro ⟨ht, he⟩
        rw [h s (List.mem_cons_self _ _) ht] at he
        exact Bool.false_ne_true he
  exact key 0

theorem sum_over_teams_zero (stats : List TeamStats) (name : String)
    (h : ∀ t ∈ stats, ∀ s ∈ t.statistics, s.type = name → s.value = .pint 0) :
    stats.foldl (fun acc team => acc + sum_stat_list team.statistics name) 0 = 0 := by
  have key : ∀ (acc : ℤ),
      stats.foldl (fun acc team => acc + sum_stat_list team.statistics name) acc
        = acc := by
    induction stats with
    | nil => intro acc; rfl
    | cons t rest ih =>
      intro acc
      rw [List.foldl_cons,
        sum_stat_list_zero t.statistics name (h t (List.mem_cons_self _ _)), add_zero]
      exact ih (fun x hx => h x (List.mem_cons_of_mem _ hx)) acc
  exact key 0

/-- The per-team fold never acquires an explicit expected-goals figure
when no entry carries one of the three expected-goals keys. -/
theorem xg_fold_no_explicit (l : List StatEntry) (st : ℤ × ℤ × Option ℚ)
    (h : ∀ s ∈ l, ¬ (lowerStr (pyStrip s.type) = "expected goals"
      ∨ lowerStr (pyStrip s.type) = "expected_goals" ∨ lowerStr (pyStrip s.type) = "xg")) :
    (l.foldl xg_fold_step st).2.2 = st.2.2 := by
  induction l generalizing st with
  | nil => rfl
  | cons s rest ih =>
    rw [List.foldl_cons]
    rw [ih _ (fun x hx => h x (List.mem_cons_of_mem _ hx))]
    unfold xg_fold_step
    split
    · rfl
    · rw [if_neg (h s (List.mem_cons_self _ _))]
      split
      · rfl
      · split <;> rfl

/-
  Claim theorems.  The rational operations of Batteries are locally made
  semireducible so that concrete runs of the engine can be settled by
  evaluation inside `decide`.
-/

section ClaimTheorems

attribute [local semireducible] Rat.add Rat.mul Rat.inv Rat.sub

/-- C2: the claim says the risk, stability, and threshold-adjustment
paths of analyze_match read configuration attributes such as
RISK_DANGEROUS_ACTIONS_CAP, MAX_RISK_INDEX, MIN_STABILITY_INDEX,
LATE_WINDOW_THRESHOLD_MINUTE and MINIMUM_EFFECTIVE_THRESHOLD and
complete without error for every fixture that reaches them.  In fact
src/config.py defines none of these names, so the very first read of
calculate_risk_index fails (Python: AttributeError) on every input:
every fixture with valid teams, an allowed score and statistics crashes
the analysis instead of completing. -/
theorem C2_risk_config_crash :
    (∀ tm : TempoMetrics, calculate_risk_index_srcconfig tm
        = Except.error
          "AttributeError: module config has no attribute RISK_DANGEROUS_ACTIONS_CAP")
    ∧ "RISK_DANGEROUS_ACTIONS_CAP" ∉ config.config_defines
    ∧ "MAX_RISK_INDEX" ∉ config.config_defines
    ∧ "RISK_WARNING_THRESHOLD" ∉ config.config_defines
    ∧ "MIN_STABILITY_INDEX" ∉ config.config_defines
    ∧ "STABILITY_MARGIN_RECOVERY" ∉ config.config_defines
    ∧ "LATE_WINDOW_THRESHOLD_MINUTE" ∉ config.config_defines
    ∧ "MINIMUM_EFFECTIVE_THRESHOLD" ∉ config.config_defines := by
  exact ⟨fun tm => rfl, by decide, by decide, by decide, by decide, by decide,
    by decide, by decide⟩

/-- C3 counterexample: the claim says unparseable string values yield
absent and the extractor never silently returns zero for them; in fact a
truthy unparseable value such as `"abc"` makes the per-team query return
`some 0`, not `none`. -/
theorem C3_counterexample :
    extract_statistic statsAbc "Total Shots" (some 0) = some 0
      ∧ extract_statistic statsAbc "Total Shots" (some 0) ≠ none := by
  exact ⟨rfl, by decide⟩

/-- C3 amended: extract_statistic returns the team's converted value for
the first truthy non-"N/A" entry of the statistic when a team index is
given (digit strings and `%`-suffixed digit strings parse to their
number, any other accepted value converts to 0 rather than to absent),
returns the sum of converted values across all teams when no index is
given (never absent for a non-empty statistics set), and returns absent
when every entry of the statistic is falsy or "N/A" or the statistic is
missing; it never raises. -/
theorem C3_amended_extractor :
    (∀ (stats : List TeamStats) (name : String) (i : ℕ) (team : TeamStats),
        stats.get? i = some team →
        (∀ s ∈ team.statistics, s.type = name → statEffective s.value = false) →
        extract_statistic stats name (some i) = none)
    ∧ (∀ (stats : List TeamStats) (name : String) (i : ℕ) (team : TeamStats)
          (pre post : List StatEntry) (v : PyVal),
        stats.get? i = some team →
        team.statistics = pre ++ ⟨name, v⟩ :: post →
        (∀ s ∈ pre, s.type = name → statEffective s.value = false) →
        statEffective v = true →
        extract_statistic stats name (some i) = some (statValueToInt v))
    ∧ (∀ (stats : List TeamStats) (name : String), stats ≠ [] →
        extract_statistic stats name none
          = some (stats.foldl
              (fun acc team => acc + sum_stat_list team.statistics name) 0))
    ∧ statValueToInt (.pstr "abc") = 0 ∧ statValueToInt (.pint 7) = 7
    ∧ statValueToInt (.pstr "55%") = 55 := by
  refine ⟨?_, ?_, ?_, by decide, by decide, by decide⟩
  · intro stats name i team hget hall
    have hne : stats ≠ [] := by
      rintro rfl
      simp at hget
    simp only [extract_statistic, hget]
    rw [if_neg hne]
    exact extract_from_list_none _ _ hall
  · intro stats name i team pre post v hget hdecomp hpre hv
    have hne : stats ≠ [] := by
      rintro rfl
      simp at hget
    simp only [extract_statistic, hget]
    rw [if_neg hne, hdecomp]
    exact extract_from_list_found pre post name v hpre hv
  · intro stats name hne
    unfold extract_statistic
    rw [if_neg hne]

/-- C3 witness: the amended behaviour at concrete inputs — a team whose
entry holds "N/A" yields absent, a digit entry after it parses, and the
both-teams sum over the unparseable set is zero. -/
theorem C3_witness :
    extract_statistic [⟨[⟨"Fouls", .pstr "N/A"⟩]⟩] "Fouls" (some 0) = none
      ∧ extract_statistic [⟨[⟨"Fouls", .pstr "N/A"⟩, ⟨"Fouls", .pint 7⟩]⟩] "Fouls"
          (some 0) = some 7
      ∧ extract_statistic statsAbc "Total Shots" none = some 0 := by
  refine ⟨?_, ?_, ?_⟩
  · exact C3_amended_extractor.1 [⟨[⟨"Fouls", .pstr "N/A"⟩]⟩] "Fouls" 0 _ rfl
      (by decide)
  · exact C3_amended_extractor.2.1 [⟨[⟨"Fouls", .pstr "N/A"⟩, ⟨"Fouls", .pint 7⟩]⟩]
      "Fouls" 0 _ [⟨"Fouls", .pstr "N/A"⟩] [] (.pint 7) rfl rfl (by decide) (by decide)
  · exact C3_amended_extractor.2.2.1 statsAbc "Total Shots" (by decide)

/-- C9: extract_statistic treats a recorded 0 as absent — a per-team
query whose stored values for the statistic are all 0 returns `none`
(so callers substitute their defaults), while a both-teams query over a
non-empty statistics set returns the integer 0, never `none`, both when
the stored values are zero and when the statistic is entirely missing. -/
theorem C9_zero_absent :
    (∀ (stats : List TeamStats) (name : String) (i : ℕ) (team : TeamStats),
        stats.get? i = some team →
        (∀ s ∈ team.statistics, s.type = name → s.value = .pint 0) →
        extract_statistic stats name (some i) = none)
    ∧ (∀ (stats : List TeamStats) (name : String), stats ≠ [] →
        (∀ t ∈ stats, ∀ s ∈ t.statistics, s.type = name → s.value = .pint 0) →
        extract_statistic stats name none = some 0) := by
  constructor
  · intro stats name i team hget hall
    have hne : stats ≠ [] := by
      rintro rfl
      simp at hget
    simp only [extract_statistic, hget]
    rw [if_neg hne]
    exact extract_from_list_none _ _
      (fun s hs ht => by rw [hall s hs ht]; rfl)
  · intro stats name hne hall
    unfold extract_statistic
    rw [if_neg hne]
    exact congrArg some (sum_over_teams_zero stats name hall)

/-- C9 witness: a genuine zero corner reading is reported absent
per-team and as the integer 0 across both teams. -/
theorem C9_witness :
    extract_statistic stats9 "Corner Kicks" (some 0) = none
      ∧ extract_statistic stats9 "Corner Kicks" none = some 0 := by
  constructor
  · exact C9_zero_absent.1 stats9 "Corner Kicks" 0 _ rfl (by decide)
  · exact C9_zero_absent.2 stats9 "Corner Kicks" (by decide) (by decide)

/-- C10: with an empty event log, or a current minute below 10, or fewer
than two events in the last ten minutes, calculate_xg_slope returns
exactly 0; consequently (for a statistics set with both teams present)
the momentum criterion awards its 2 points and the accelerating-tempo
penalty cannot fire. -/
theorem C10_slope_degenerate (events : List Event) (minute : ℤ)
    (stats : List TeamStats) (goals_data : Goals) (cxg shxg : ℚ) (split : ℚ × ℚ)
    (hdeg : events = [] ∨ minute < 10
      ∨ (events.filter (fun e => e.elapsed.getD 0 ≥ minute - 10)).length < 2) :
    calculate_xg_slope events minute = 0
    ∧ (2 ≤ stats.length →
        (calculate_match_score stats events goals_data minute cxg shxg split).2.1.xg_slope
            = 2
        ∧ (calculate_match_score stats events goals_data minute cxg shxg
            split).2.1.penalty_xg_slope_rising = none) := by
  have hs : calculate_xg_slope events minute = 0 := by
    unfold calculate_xg_slope
    dsimp only
    split_ifs with h1 h2
    · rfl
    · rfl
    · exfalso
      rcases hdeg with h | h | h
      · exact h1 (Or.inl h)
      · exact h1 (Or.inr h)
      · exact h2 h
  refine ⟨hs, fun hlen => ?_⟩
  unfold calculate_match_score
  rw [if_neg (by omega)]
  dsimp only
  rw [hs]
  constructor
  · rw [if_pos]
    rw [config.MAX_XG_SLOPE_LAST10]
  · rw [if_neg]
    norm_num

/-- C10 witness: the degenerate slope behaviour at a concrete input —
scenario 4's single-event log has fewer than two recent events at
minute 65. -/
theorem C10_witness :
    calculate_xg_slope ev4 65 = 0
    ∧ (calculate_match_score stats4 ev4 ⟨some 1, some 0⟩ 65 (12/5) (21/25)
        (6/5, 6/5)).2.1.xg_slope = 2
    ∧ (calculate_match_score stats4 ev4 ⟨some 1, some 0⟩ 65 (12/5) (21/25)
        (6/5, 6/5)).2.1.penalty_xg_slope_rising = none := by
  have h := C10_slope_degenerate ev4 65 stats4 ⟨some 1, some 0⟩ (12/5) (21/25)
    (6/5, 6/5) (Or.inr (Or.inr (by decide)))
  exact ⟨h.1, (h.2 (by decide)).1, (h.2 (by decide)).2⟩

/-- C7 counterexample: the claim says the reported second-half xG equals
0.35 × the reported combined xG; with explicit team figures 0.2 and
0.15 the code reports combined 0.35 but second-half 0.12, while
0.35 × 0.35 = 0.1225. -/
theorem C7_counterexample :
    calculate_xg_from_stats stats7 = (35/100, 12/100, (2/10, 15/100))
    ∧ (calculate_xg_from_stats stats7).2.1
        ≠ (35/100) * (calculate_xg_from_stats stats7).1 := by
  exact ⟨by decide, by decide⟩

/-- C7 amended: calculate_xg_from_stats uses an explicit per-team
expected-goals statistic when present and otherwise estimates
0.35 × shots_on_target + 0.05 × max 0 (total_shots − shots_on_target);
combined xG is the unrounded sum of the team estimates rounded to two
decimals, second-half xG is 0.35 × that unrounded sum rounded to two
decimals (which can differ from 0.35 × the rounded combined figure);
with fewer than two teams everything is zero. -/
theorem C7_amended_xg :
    (∀ stats : List TeamStats, stats.length < 2 →
        calculate_xg_from_stats stats = (0, 0, (0, 0)))
    ∧ (∀ stats : List TeamStats, 2 ≤ stats.length →
        (calculate_xg_from_stats stats).1 = pyRound (total_xg_of stats) 2
        ∧ (calculate_xg_from_stats stats).2.1
            = pyRound (total_xg_of stats * (35/100)) 2)
    ∧ (∀ l : List StatEntry,
        (∀ s ∈ l, ¬ (lowerStr (pyStrip s.type) = "expected goals"
          ∨ lowerStr (pyStrip s.type) = "expected_goals" ∨ lowerStr (pyStrip s.type) = "xg")) →
        team_xg_of l
          = ((l.foldl xg_fold_step (0, 0, none)).1 : ℚ) * (35/100)
            + ((max 0 ((l.foldl xg_fold_step (0, 0, none)).2.1
                - (l.foldl xg_fold_step (0, 0, none)).1) : ℤ) : ℚ) * (5/100)) := by
  refine ⟨?_, ?_, ?_⟩
  · intro stats h
    unfold calculate_xg_from_stats
    rw [if_pos h]
  · intro stats h
    unfold calculate_xg_from_stats
    rw [if_neg (by omega)]
    exact ⟨rfl, rfl⟩
  · intro l hl
    unfold team_xg_of
    dsimp only
    rw [show (l.foldl xg_fold_step (0, 0, none)).2.2 = none from
      xg_fold_no_explicit l (0, 0, none) hl]

/-- C7 witness: the amended relations at concrete inputs — the
fewer-than-two-teams case and scenario 1's estimate-only statistics. -/
theorem C7_witness :
    calculate_xg_from_stats [homeStats1] = (0, 0, (0, 0))
    ∧ (calculate_xg_from_stats stats1).1 = pyRound (total_xg_of stats1) 2
    ∧ (calculate_xg_from_stats stats1).2.1
        = pyRound (total_xg_of stats1 * (35/100)) 2
    ∧ team_xg_of homeStats1.statistics
        = ((homeStats1.statistics.foldl xg_fold_step (0, 0, none)).1 : ℚ) * (35/100)
          + ((max 0 ((homeStats1.statistics.foldl xg_fold_step (0, 0, none)).2.1
              - (homeStats1.statistics.foldl xg_fold_step (0, 0, none)).1) : ℤ) : ℚ)
            * (5/100) := by
  refine ⟨C7_amended_xg.1 [homeStats1] (by decide), ?_, ?_, ?_⟩
  · exact (C7_amended_xg.2.1 stats1 (by decide)).1
  · exact (C7_amended_xg.2.1 stats1 (by decide)).2
  · exact C7_amended_xg.2.2 homeStats1.statistics (by decide)

/-- Scenario 1 analysed from an empty cache reports a result; `r1` and
`c1after` name its components. -/
theorem run1_eq : analyze_match cfg1 [] fix1 api1 = (some r1, c1after) := by
  decide

/-- C1 counterexample: the claim says analyze_match's reported score —
including the risk penalty and the team-form and head-to-head points —
never exceeds MAX_TOTAL_SCORE = 30; scenario 1 reports a score of 32,
because the form points are added after the engine clips at 30. -/
theorem C1_counterexample :
    (analyze_match cfg1 [] fix1 api1).1.map AnalysisResult.matchScore = some 32
    ∧ ¬ ((32 : ℤ) ≤ config.MAX_TOTAL_SCORE) := by
  exact ⟨by decide, by decide⟩

/-- C1 amended: calculate_match_score's final score is always in
`[0, MAX_TOTAL_SCORE]` (penalties clip at zero, never below), and the
score analyze_match reports — with the risk penalty, team-form and
head-to-head points added on top — is always in
`[0, MAX_TOTAL_SCORE + 2]`; the form additions happen after the clip, so
the reported score can exceed the point scale by up to two points. -/
theorem C1_amended_score_bounds :
    (∀ (stats : List TeamStats) (events : List Event) (goals_data : Goals)
        (minute : ℤ) (cxg shxg : ℚ) (split : ℚ × ℚ),
        0 ≤ (calculate_match_score stats events goals_data minute cxg shxg split).1
        ∧ (calculate_match_score stats events goals_data minute cxg shxg split).1
            ≤ config.MAX_TOTAL_SCORE)
    ∧ (∀ (cfg : Cfg) (cache : Cache) (fx : Fixture) (api : ApiData)
        (r : AnalysisResult) (c2 : Cache),
        analyze_match cfg cache fx api = (some r, c2) →
        0 ≤ r.matchScore ∧ r.matchScore ≤ config.MAX_TOTAL_SCORE + 2) := by
  constructor
  · intro stats events goals_data minute cxg shxg split
    exact calculate_match_score_bounds stats events goals_data minute cxg shxg split
  · intro cfg cache fx api r c2 h
    obtain ⟨q, hcore, _⟩ := analyze_match_some cfg cache fx api r c2 h
    exact (analyze_core_result cfg fx api r q hcore).2.2

/-- C1 witness: the amended bounds hold for scenario 1's reported score. -/
theorem C1_witness :
    0 ≤ r1.matchScore ∧ r1.matchScore ≤ config.MAX_TOTAL_SCORE + 2 :=
  C1_amended_score_bounds.2 cfg1 [] fix1 api1 r1 c1after run1_eq

/-- C4 counterexample: the claim says a weak_candidate with stability
below MIN_STABILITY_INDEX is retained and reported when its margin is at
or above STABILITY_MARGIN_RECOVERY; in scenario 4 the classification
after demotions is weak_candidate, stability 0.266 is below the 0.35
floor, the margin 2 is at or above the recovery margin 1, and yet
analyze_match returns no result — the weak-candidate rejection has no
recovery escape. -/
theorem C4_counterexample :
    (analyze_match cfg2 [] fix4 api4).1 = none
    ∧ engine_classification cfg2 fix4 api4 = Class.weak_candidate
    ∧ (engine_stability cfg2 fix4 api4).1 < cfg2.MIN_STABILITY_INDEX
    ∧ cfg2.STABILITY_MARGIN_RECOVERY ≤ (engine_stability cfg2 fix4 api4).2 := by
  exact ⟨by decide, by decide, by decide, by decide⟩

/-- C4 amended: whenever the classification after all demotions is
weak_candidate and the stability index is below MIN_STABILITY_INDEX,
analyze_match converts it to a rejection regardless of the stability
margin; the recovery-margin escape exists only in the earlier stability
gate that precedes classification, so no reported result is ever a
weak_candidate with stability below the floor. -/
theorem C4_amended_weak_reject :
    ∀ (cfg : Cfg) (cache : Cache) (fx : Fixture) (api : ApiData)
      (r : AnalysisResult) (c2 : Cache),
      analyze_match cfg cache fx api = (some r, c2) →
      ¬ (r.classification = Class.weak_candidate
          ∧ r.stabilityIndex < cfg.MIN_STABILITY_INDEX) := by
  intro cfg cache fx api r c2 h
  obtain ⟨q, hcore, _⟩ := analyze_match_some cfg cache fx api r c2 h
  exact (analyze_core_result cfg fx api r q hcore).1

/-- C4 witness: scenario 1's reported result respects the amended rule. -/
theorem C4_witness :
    ¬ (r1.classification = Class.weak_candidate
        ∧ r1.stabilityIndex < cfg1.MIN_STABILITY_INDEX) :=
  C4_amended_weak_reject cfg1 [] fix1 api1 r1 c1after run1_eq

/-- C5: analyzing a fixture twice with the identical (score, minute,
last-event-minute) triple is suppressed the second time; when the stored
triple differs the cache has no influence on the outcome (full
recomputation); and the cache entry is created or overwritten exactly
when the fixture qualifies and is about to be reported, never on a
rejection. -/
theorem C5_cache_dedup (cfg : Cfg) (cache : Cache) (fx : Fixture) (api : ApiData) :
    (∀ r c2, analyze_match cfg cache fx api = (some r, c2) →
        (analyze_match cfg c2 fx api).1 = none)
    ∧ (check_cache cache fx.fixtureId (fixture_score_str fx) (fixture_minute fx)
          (api_last_event_time api) = none →
        (analyze_match cfg cache fx api).1 = (analyze_match cfg [] fx api).1)
    ∧ ((analyze_match cfg cache fx api).1 = none →
        (analyze_match cfg cache fx api).2 = cache)
    ∧ (∀ r, (analyze_match cfg cache fx api).1 = some r →
        ∃ q, (analyze_match cfg cache fx api).2
          = update_cache cache fx.fixtureId (fixture_score_str fx) (fixture_minute fx)
              (api_last_event_time api) q) := by
  refine ⟨fun r c2 h => analyze_match_suppresses cfg cache fx api r c2 h,
    fun hmiss => analyze_match_recompute cfg cache fx api hmiss, ?_, ?_⟩
  · intro hnone
    rcases analyze_match_cases cfg cache fx api with ⟨_, h2⟩ | ⟨r, q, heq⟩
    · exact h2
    · rw [heq] at hnone
      exact Option.noConfusion hnone
  · intro r hsome
    rcases analyze_match_cases cfg cache fx api with ⟨h1, _⟩ | ⟨r', q, heq⟩
    · rw [h1] at hsome
      exact Option.noConfusion hsome
    · exact ⟨q, by rw [heq]⟩

/-- C5 witness: re-analyzing scenario 1 against the cache its first
analysis produced is suppressed. -/
theorem C5_witness : (analyze_match cfg1 c1after fix1 api1).1 = none :=
  (C5_cache_dedup cfg1 [] fix1 api1).1 r1 c1after run1_eq

/-- C8: the classification analyze_match reports is never a
higher-confidence tier than the base band classify_confidence assigns to
final_score / MAX_TOTAL_SCORE — the risk and stability rules only demote
or reject, never promote. -/
theorem C8_no_promotion :
    ∀ (cfg : Cfg) (cache : Cache) (fx : Fixture) (api : ApiData)
      (r : AnalysisResult) (c2 : Cache),
      analyze_match cfg cache fx api = (some r, c2) →
      classRank r.classification
        ≤ classRank (classify_confidence
            ((r.matchScore : ℚ) / (config.MAX_TOTAL_SCORE : ℚ))) := by
  intro cfg cache fx api r c2 h
  obtain ⟨q, hcore, _⟩ := analyze_match_some cfg cache fx api r c2 h
  exact (analyze_core_result cfg fx api r q hcore).2.1

/-- C8 witness: scenario 1's reported classification does not out-rank
its base confidence band. -/
theorem C8_witness :
    classRank r1.classification
      ≤ classRank (classify_confidence
          ((r1.matchScore : ℚ) / (config.MAX_TOTAL_SCORE : ℚ))) :=
  C8_no_promotion cfg1 [] fix1 api1 r1 c1after run1_eq

/-- C6: for a fixed risk index and fixed configuration (with a
nonnegative late-window relief, as the spec's "reduced by configured
amounts" prescribes), the effective threshold is monotonically
non-increasing in the match minute; the minute-70 and minute-80 reliefs
are mutually exclusive with the larger minute-80 relief winning from
minute 80 on; and the threshold never drops below the configured
minimum. -/
theorem C6_threshold_relief (cfg : Cfg) (risk : ℚ) (m1 m2 : ℤ)
    (hred : 0 ≤ cfg.LATE_WINDOW_THRESHOLD_REDUCTION) (hm : m1 ≤ m2) :
    effective_threshold_calc cfg m2 risk ≤ effective_threshold_calc cfg m1 risk
    ∧ (80 ≤ m2 →
        (threshold_adjustments cfg m2 risk).minute_80
            = some (-(config.TOLERANCE_MINUTE_80 : ℚ))
          ∧ (threshold_adjustments cfg m2 risk).minute_70 = none)
    ∧ (70 ≤ m2 ∧ m2 < 80 →
        (threshold_adjustments cfg m2 risk).minute_70
            = some (-(config.TOLERANCE_MINUTE_70 : ℚ))
          ∧ (threshold_adjustments cfg m2 risk).minute_80 = none)
    ∧ config.TOLERANCE_MINUTE_70 ≤ config.TOLERANCE_MINUTE_80
    ∧ cfg.MINIMUM_EFFECTIVE_THRESHOLD ≤ effective_threshold_calc cfg m2 risk := by
  have key : ∀ m : ℤ, effective_threshold_calc cfg m risk
      = max cfg.MINIMUM_EFFECTIVE_THRESHOLD
          ((config.REQUIRED_SCORE : ℚ)
            - (if m ≥ 80 ∧ config.TOLERANCE_MINUTE_80 ≠ 0 then
                (config.TOLERANCE_MINUTE_80 : ℚ)
              else if m ≥ 70 ∧ config.TOLERANCE_MINUTE_70 ≠ 0 then
                (config.TOLERANCE_MINUTE_70 : ℚ)
              else 0)
            - (if m ≥ cfg.LATE_WINDOW_THRESHOLD_MINUTE
                  ∧ cfg.LATE_WINDOW_THRESHOLD_REDUCTION ≠ 0 then
                cfg.LATE_WINDOW_THRESHOLD_REDUCTION
              else 0)
            - (if risk ≤ cfg.LOW_RISK_RELAXATION_THRESHOLD
                  ∧ cfg.LOW_RISK_RELAXATION_DELTA ≠ 0 then
                cfg.LOW_RISK_RELAXATION_DELTA
              else 0)) := by
    intro m
    unfold effective_threshold_calc
    dsimp only
    split_ifs <;> congr 1 <;> ring
  have h1 : (if m1 ≥ 80 ∧ config.TOLERANCE_MINUTE_80 ≠ 0 then
        (config.TOLERANCE_MINUTE_80 : ℚ)
      else if m1 ≥ 70 ∧ config.TOLERANCE_MINUTE_70 ≠ 0 then
        (config.TOLERANCE_MINUTE_70 : ℚ)
      else 0)
      ≤ (if m2 ≥ 80 ∧ config.TOLERANCE_MINUTE_80 ≠ 0 then
        (config.TOLERANCE_MINUTE_80 : ℚ)
      else if m2 ≥ 70 ∧ config.TOLERANCE_MINUTE_70 ≠ 0 then
        (config.TOLERANCE_MINUTE_70 : ℚ)
      else 0) := by
    simp only [config.TOLERANCE_MINUTE_70, config.TOLERANCE_MINUTE_80]
    norm_num
    split_ifs <;> first
      | (exfalso; omega)
      | norm_num
  have h2 : (if m1 ≥ cfg.LATE_WINDOW_THRESHOLD_MINUTE
        ∧ cfg.LATE_WINDOW_THRESHOLD_REDUCTION ≠ 0 then
        cfg.LATE_WINDOW_THRESHOLD_REDUCTION
      else 0)
      ≤ (if m2 ≥ cfg.LATE_WINDOW_THRESHOLD_MINUTE
        ∧ cfg.LATE_WINDOW_THRESHOLD_REDUCTION ≠ 0 then
        cfg.LATE_WINDOW_THRESHOLD_REDUCTION
      else 0) := by
    split_ifs with ha hb
    · exact le_refl _
    · exact absurd ⟨le_trans ha.1 hm, ha.2⟩ hb
    · exact hred
    · exact le_refl _
  refine ⟨?_, ?_, ?_, by decide, ?_⟩
  · rw [key m1, key m2]
    exact max_le_max (le_refl _) (by linarith)
  · intro hm2
    unfold threshold_adjustments
    constructor
    · exact if_pos ⟨hm2, by decide⟩
    · exact if_neg (fun hc => hc.1 ⟨hm2, by decide⟩)
  · rintro ⟨h70, h80⟩
    unfold threshold_adjustments
    constructor
    · exact if_pos ⟨fun hc => absurd hc.1 (by omega), h70, by decide⟩
    · exact if_neg (fun hc => absurd hc.1 (by omega))
  · rw [key m2]
    exact le_max_left _ _

/-- C6 witness: with a concrete configuration and risk 0.5, the
threshold at minute 85 is at most the one at minute 65, minute 85
records only the minute-80 relief, and the floor holds. -/
theorem C6_witness :
    effective_threshold_calc cfg1 85 (1/2) ≤ effective_threshold_calc cfg1 65 (1/2)
    ∧ (threshold_adjustments cfg1 85 (1/2)).minute_80
        = some (-(config.TOLERANCE_MINUTE_80 : ℚ))
    ∧ (threshold_adjustments cfg1 85 (1/2)).minute_70 = none
    ∧ cfg1.MINIMUM_EFFECTIVE_THRESHOLD ≤ effective_threshold_calc cfg1 85 (1/2) := by
  have h := C6_threshold_relief cfg1 (1/2) 65 85 (by norm_num [cfg1]) (by norm_num)
  exact ⟨h.1, (h.2.1 (by norm_num)).1, (h.2.1 (by norm_num)).2, h.2.2.2.2⟩

end ClaimTheorems

end LiveBetting
